import Mathlib

/-!
# SIP connection test client (`main/main.c`)

A shallow embedding of the probe client: the C library conversions it relies on
(`snprintf`, `%d`, `%08x`, `strncmp`, `atoi`), the identifier generator, the two
request builders, the response classifier, the link event handler and one
iteration of the probe loop, followed by the properties proved about them.

C strings are lists of characters (the characters before the terminating NUL).
External calls (DNS lookup, `socket`, `sendto`, `recvfrom`, the random source)
take their results from an explicit environment record; every function returns
the list of observable events it performs together with the new value of the
globals it writes.
-/

namespace SipClient

/-! ## C library model -/

/-- A C string: the characters that precede the terminating NUL. -/
abbrev CStr := List Char

/-- `snprintf(buf, size, ...)` : stores at most `size - 1` characters of the formatted text. -/
def snprintf (size : Nat) (formatted : CStr) : CStr :=
  formatted.take (size - 1)

/-- The `%d` conversion of an `int`. -/
def fmt_d : Int → CStr
  | Int.ofNat n => Nat.toDigits 10 n
  | Int.negSucc n => '-' :: Nat.toDigits 10 (n + 1)

/-- The `%08x` conversion (`"%08" PRIx32`): lower-case hexadecimal digits, padded on the left
with `0` up to a width of 8. -/
def fmt_08x (v : Nat) : CStr :=
  List.replicate (8 - (Nat.toDigits 16 v).length) '0' ++ Nat.toDigits 16 v

/-- Two's complement wrap of a mathematical integer into the range of a 32-bit `int`.  Signed
overflow is undefined in ISO C; the target's `add` instruction wraps, which is what is modelled. -/
def wrap_int32 (v : Int) : Int :=
  (v + 2147483648) % 4294967296 - 2147483648

/-- `IP2STR` formatted with `IPSTR` (`"%d.%d.%d.%d"`): the four bytes of the address word,
lowest byte first. -/
def ip2str (addr : Nat) : CStr :=
  fmt_d (Int.ofNat (addr % 256)) ++ ".".toList ++ fmt_d (Int.ofNat (addr / 256 % 256)) ++ ".".toList ++
  fmt_d (Int.ofNat (addr / 65536 % 256)) ++ ".".toList ++ fmt_d (Int.ofNat (addr / 16777216 % 256))

/-! ## Configuration -/

def SIP_SERVER : CStr := "opensips.org".toList
def SIP_PORT : Int := 5060
def SIP_USER : CStr := "test".toList
def SIP_TIMEOUT : Nat := 30

/-! ## Globals -/

/-- The SIP client variables: `call_id`, `local_tag`, `branch_id`, `cseq`. -/
structure Globals where
  call_id : CStr
  local_tag : CStr
  branch_id : CStr
  cseq : Int
  deriving DecidableEq, Repr

/-- Static initialisation: zeroed buffers and `cseq = 1`. -/
def Globals.init : Globals := { call_id := [], local_tag := [], branch_id := [], cseq := 1 }

/-! ## Identifier generator -/

/-- `generate_random_ids`, given the three values returned by `esp_random()`. -/
def generate_random_ids (random1 random2 random3 : Nat) (g : Globals) : Globals :=
  { g with
    call_id := snprintf 64 (fmt_08x random1 ++ fmt_08x random2 ++ "@esp32s3".toList)
    local_tag := snprintf 32 (fmt_08x random3)
    branch_id := snprintf 64 ("z9hG4bK".toList ++ fmt_08x random1) }

/-- The value of a lower-case hexadecimal digit. -/
def hex_digit_value (c : Char) : Nat :=
  if '0'.toNat ≤ c.toNat ∧ c.toNat ≤ '9'.toNat then c.toNat - '0'.toNat
  else c.toNat - 'a'.toNat + 10

/-- The number a string of lower-case hexadecimal digits denotes, most significant digit
first. -/
def hex_value (s : CStr) : Nat :=
  s.foldl (fun acc c => acc * 16 + hex_digit_value c) 0

/-! ## Message builders -/

/-- The text formatted by the `snprintf` call of `send_sip_options`, before it is cut to the
buffer. -/
def options_format (server : CStr) (port : Int) (local_ip branch user tag callid : CStr)
    (seq : Int) : CStr :=
  "OPTIONS sip:".toList ++ server ++ ":".toList ++ fmt_d port ++ " SIP/2.0\r\n".toList ++
  "Via: SIP/2.0/UDP ".toList ++ local_ip ++ ":5060;branch=".toList ++ branch ++ ";rport\r\n".toList ++
  "From: <sip:".toList ++ user ++ "@".toList ++ server ++ ":".toList ++ fmt_d port ++
    ">;tag=".toList ++ tag ++ "\r\n".toList ++
  "To: <sip:".toList ++ server ++ ":".toList ++ fmt_d port ++ ">\r\n".toList ++
  "Call-ID: ".toList ++ callid ++ "\r\n".toList ++
  "CSeq: ".toList ++ fmt_d seq ++ " OPTIONS\r\n".toList ++
  "Max-Forwards: 70\r\n".toList ++
  "User-Agent: ESP32-S3-SIP-Client/1.0\r\n".toList ++
  "Accept: application/sdp, text/plain\r\n".toList ++
  "Content-Length: 0\r\n".toList ++
  "\r\n".toList

/-- The contents of `sip_msg` (`char sip_msg[512]`) in `send_sip_options`. -/
def options_msg (server : CStr) (port : Int) (local_ip branch user tag callid : CStr)
    (seq : Int) : CStr :=
  snprintf 512 (options_format server port local_ip branch user tag callid seq)

/-- The text formatted by the `snprintf` call of `send_sip_register`, before it is cut to the
buffer. -/
def register_format (server : CStr) (port : Int) (local_ip branch user tag callid : CStr)
    (seq : Int) : CStr :=
  "REGISTER sip:".toList ++ server ++ ":".toList ++ fmt_d port ++ " SIP/2.0\r\n".toList ++
  "Via: SIP/2.0/UDP ".toList ++ local_ip ++ ":5060;branch=".toList ++ branch ++ ";rport\r\n".toList ++
  "From: <sip:".toList ++ user ++ "@".toList ++ server ++ ":".toList ++ fmt_d port ++
    ">;tag=".toList ++ tag ++ "\r\n".toList ++
  "To: <sip:".toList ++ user ++ "@".toList ++ server ++ ":".toList ++ fmt_d port ++ ">\r\n".toList ++
  "Call-ID: ".toList ++ callid ++ "\r\n".toList ++
  "CSeq: ".toList ++ fmt_d seq ++ " REGISTER\r\n".toList ++
  "Contact: <sip:".toList ++ user ++ "@".toList ++ local_ip ++ ":5060>;expires=300\r\n".toList ++
  "Max-Forwards: 70\r\n".toList ++
  "User-Agent: ESP32-S3-SIP-Client/1.0\r\n".toList ++
  "Allow: INVITE,ACK,CANCEL,BYE,NOTIFY,REFER,MESSAGE,OPTIONS,INFO,SUBSCRIBE\r\n".toList ++
  "Expires: 300\r\n".toList ++
  "Content-Length: 0\r\n".toList ++
  "\r\n".toList

/-- The contents of `sip_msg` (`char sip_msg[1024]`) in `send_sip_register`. -/
def register_msg (server : CStr) (port : Int) (local_ip branch user tag callid : CStr)
    (seq : Int) : CStr :=
  snprintf 1024 (register_format server port local_ip branch user tag callid seq)

/-- The blank line that ends a header block. -/
def blank_line : CStr := "\r\n\r\n".toList

/-- A string has no carriage return and no line feed. -/
def no_crlf (s : CStr) : Prop := ∀ c ∈ s, c ≠ '\r' ∧ c ≠ '\n'

instance (s : CStr) : Decidable (no_crlf s) := by
  unfold no_crlf; infer_instance

/-- Some position that lies inside both lists holds different characters. -/
def clash : CStr → CStr → Bool
  | p :: ps, c :: cs => p != c || clash ps cs
  | _, _ => false

/-- No occurrence of the blank line can start inside `s`, whatever text follows `s`. -/
def skips : CStr → Bool
  | [] => true
  | c :: cs => clash blank_line (c :: cs) && skips cs

/-- The blank line occurs in `m` only as its last four characters. -/
def only_at_end (m : CStr) : Prop :=
  ∀ pre post : CStr, m = pre ++ blank_line ++ post → post = []

/-- The header block of `m` is closed by `Content-Length: 0` and exactly one blank line, with
nothing after it: `m` ends with that text and the blank line occurs nowhere else in `m`. -/
def single_blank_line_at_end (m : CStr) : Prop :=
  "Content-Length: 0\r\n\r\n".toList <:+ m ∧ only_at_end m

/-! ## Response classifier -/

/-- `strncmp(a, b, n)` on C strings: 0 when the first `n` characters agree (or both strings end
together before that), otherwise the difference of the first two characters that differ, the end
of a string counting as the character 0. -/
def strncmp : CStr → CStr → Nat → Int
  | _, _, 0 => 0
  | [], [], _ + 1 => 0
  | [], b :: _, _ + 1 => - (b.toNat : Int)
  | a :: _, [], _ + 1 => (a.toNat : Int)
  | a :: as, b :: bs, n + 1 => if a = b then strncmp as bs n else (a.toNat : Int) - (b.toNat : Int)

/-- `isspace` in the C locale. -/
def isspace (c : Char) : Bool :=
  c = ' ' || c = '\t' || c = '\n' || c = '\x0b' || c = '\x0c' || c = '\r'

/-- `isdigit`. -/
def isdigit (c : Char) : Bool :=
  '0'.toNat ≤ c.toNat && c.toNat ≤ '9'.toNat

/-- The digit loop of `strtol` in base 10: accumulates the leading decimal digits. -/
def digits_value : CStr → Nat → Nat
  | [], acc => acc
  | c :: cs, acc => if isdigit c then digits_value cs (acc * 10 + (c.toNat - '0'.toNat)) else acc

/-- `atoi`, which the C library of the target defines as `(int) strtol(s, NULL, 10)` with a
32-bit `long`: leading white space is skipped, one sign is accepted, the leading digits are read
and a value out of range is replaced by `LONG_MAX` or `LONG_MIN`. -/
def atoi (s : CStr) : Int :=
  match s.dropWhile isspace with
  | [] => 0
  | c :: t =>
    if c = '-' then max (-(digits_value t 0 : Int)) (-2147483648)
    else if c = '+' then min (digits_value t 0 : Int) 2147483647
    else min (digits_value (c :: t) 0 : Int) 2147483647

/-- The outcome logged by `handle_sip_response`. -/
inductive Category
  | success              -- "SUCCESS: 200 OK - Registration successful!"
  | auth_required        -- "401 Unauthorized - Authentication required"
  | forbidden            -- "403 Forbidden - Registration denied"
  | not_found            -- "404 Not Found - User not found"
  | proxy_auth_required  -- "407 Proxy Authentication Required"
  | timeout_code         -- "408 Request Timeout"
  | server_error         -- "500 Server Internal Error"
  | other_code           -- "Response Code: %d"
  | request_not_response -- "Received SIP request (not a response)"
  deriving DecidableEq, Repr

/-- `handle_sip_response`: the log line it selects for a received buffer. -/
def handle_sip_response (response : CStr) : Category :=
  if strncmp response "SIP/2.0 ".toList 8 = 0 then
    if atoi (response.drop 8) = 200 then Category.success
    else if atoi (response.drop 8) = 401 then Category.auth_required
    else if atoi (response.drop 8) = 403 then Category.forbidden
    else if atoi (response.drop 8) = 404 then Category.not_found
    else if atoi (response.drop 8) = 407 then Category.proxy_auth_required
    else if atoi (response.drop 8) = 408 then Category.timeout_code
    else if atoi (response.drop 8) = 500 then Category.server_error
    else Category.other_code
  else Category.request_not_response

/-- The category the specification names for a status code. -/
def named_category (code : Int) : Category :=
  match code with
  | 200 => Category.success
  | 401 => Category.auth_required
  | 403 => Category.forbidden
  | 404 => Category.not_found
  | 407 => Category.proxy_auth_required
  | 408 => Category.timeout_code
  | 500 => Category.server_error
  | _ => Category.other_code

/-! ## Observable events -/

/-- The log lines the properties refer to. -/
inductive LogMsg
  | wifi_disconnected          -- "WiFi disconnected, waiting..."
  | test_cycle (n : Int)       -- "=== TEST CYCLE #%d ==="
  | unable_to_create_socket    -- "Unable to create socket: errno %d"
  | socket_created             -- "UDP socket created successfully"
  | failed_to_create_socket    -- "Failed to create socket"
  | failed_to_resolve          -- "Failed to resolve %s"
  | send_error                 -- "Send error: errno %d (%s)"
  | failed_to_send_options     -- "Failed to send SIP OPTIONS"
  | no_options_response        -- "No OPTIONS response (errno: %d - %s)"
  | no_register_response       -- "No REGISTER response (errno: %d - %s)"
  | response (c : Category)    -- the line chosen by handle_sip_response
  | working_correctly          -- "*** ESP32 SIP CLIENT IS WORKING CORRECTLY! ***"
  | no_response_from_server    -- "*** NO RESPONSE FROM SIP SERVER ***"
  deriving DecidableEq, Repr

/-- Calls to the platform and log lines, in the order the task performs them. -/
inductive Event
  | log (m : LogMsg)
  | delay (ms : Nat)                               -- vTaskDelay(pdMS_TO_TICKS(ms))
  | socket (ret : Int)                             -- socket(...) returning ret
  | setsockopt (sock : Int) (secs : Nat)           -- SO_RCVTIMEO of secs seconds
  | close (sock : Int)
  | random_ids                                     -- generate_random_ids()
  | call_options (sock : Int)                      -- entry of send_sip_options(sock)
  | ret_options (ok : Bool)                        -- its return value
  | call_register (sock : Int)                     -- entry of send_sip_register(sock)
  | ret_register (ok : Bool)                       -- its return value
  | gethostbyname (found : Bool)
  | sendto (sock : Int) (msg : CStr) (ret : Int)
  | recvfrom (sock : Int) (len : Int)
  deriving DecidableEq, Repr

/-! ## Transport -/

/-- What the platform answers during one send attempt. -/
structure SendEnv where
  /-- `gethostbyname(SIP_SERVER)`: `none` for `NULL`, otherwise the resolved address. -/
  host : Option Nat
  /-- `ip_info.ip.addr` of the station interface. -/
  ip : Nat
  /-- The value returned by `sendto`. -/
  sendto_ret : Int
  deriving DecidableEq, Repr

/-- What `recvfrom` answers. -/
structure RecvEnv where
  /-- The value returned by `recvfrom`. -/
  len : Int
  /-- The bytes it stored in `rx_buffer`. -/
  buf : CStr
  deriving DecidableEq, Repr

/-- `create_udp_socket`, given the value returned by `socket`. -/
def create_udp_socket (socket_ret : Int) : Int × List Event :=
  if socket_ret < 0 then
    (-1, [Event.socket socket_ret, Event.log LogMsg.unable_to_create_socket])
  else
    (socket_ret, [Event.socket socket_ret, Event.setsockopt socket_ret 5,
      Event.log LogMsg.socket_created])

/-- `send_sip_options`: return value, events, globals afterwards. -/
def send_sip_options (sock : Int) (env : SendEnv) (g : Globals) : Bool × List Event × Globals :=
  match env.host with
  | none =>
    (false, [Event.call_options sock, Event.gethostbyname false,
      Event.log LogMsg.failed_to_resolve, Event.ret_options false], g)
  | some _ =>
    if env.sendto_ret < 0 then
      (false, [Event.call_options sock, Event.gethostbyname true,
        Event.sendto sock (options_msg SIP_SERVER SIP_PORT (ip2str env.ip) g.branch_id SIP_USER
          g.local_tag g.call_id g.cseq) env.sendto_ret,
        Event.log LogMsg.send_error, Event.ret_options false],
       { g with cseq := wrap_int32 (g.cseq + 1) })
    else
      (true, [Event.call_options sock, Event.gethostbyname true,
        Event.sendto sock (options_msg SIP_SERVER SIP_PORT (ip2str env.ip) g.branch_id SIP_USER
          g.local_tag g.call_id g.cseq) env.sendto_ret,
        Event.ret_options true],
       { g with cseq := wrap_int32 (g.cseq + 1) })

/-- `send_sip_register`: return value, events, globals afterwards. -/
def send_sip_register (sock : Int) (env : SendEnv) (g : Globals) : Bool × List Event × Globals :=
  match env.host with
  | none =>
    (false, [Event.call_register sock, Event.gethostbyname false,
      Event.log LogMsg.failed_to_resolve, Event.ret_register false], g)
  | some _ =>
    if env.sendto_ret < 0 then
      (false, [Event.call_register sock, Event.gethostbyname true,
        Event.sendto sock (register_msg SIP_SERVER SIP_PORT (ip2str env.ip) g.branch_id SIP_USER
          g.local_tag g.call_id g.cseq) env.sendto_ret,
        Event.log LogMsg.send_error, Event.ret_register false],
       { g with cseq := wrap_int32 (g.cseq + 1) })
    else
      (true, [Event.call_register sock, Event.gethostbyname true,
        Event.sendto sock (register_msg SIP_SERVER SIP_PORT (ip2str env.ip) g.branch_id SIP_USER
          g.local_tag g.call_id g.cseq) env.sendto_ret,
        Event.ret_register true],
       { g with cseq := wrap_int32 (g.cseq + 1) })

/-! ## Sequences of builder calls -/

/-- The contents of the globals are what their C types can hold: the three identifiers fit their
buffers (`char call_id[64]`, `char local_tag[32]`, `char branch_id[64]`) and `cseq` is a 32-bit
`int`. -/
def Globals.fits (g : Globals) : Prop :=
  g.call_id.length ≤ 63 ∧ g.local_tag.length ≤ 31 ∧ g.branch_id.length ≤ 63 ∧
  -2147483648 ≤ g.cseq ∧ g.cseq ≤ 2147483647

instance (g : Globals) : Decidable g.fits := by
  unfold Globals.fits; infer_instance

/-- The two request methods. -/
inductive Method
  | options
  | register
  deriving DecidableEq, Repr

/-- One call of a builder: which one, on which socket, and what the platform answers. -/
structure SendCall where
  method : Method
  sock : Int
  env : SendEnv
  deriving DecidableEq, Repr

/-- The call of `send_sip_options` or `send_sip_register`. -/
def send_request (c : SendCall) (g : Globals) : Bool × List Event × Globals :=
  match c.method with
  | Method.options => send_sip_options c.sock c.env g
  | Method.register => send_sip_register c.sock c.env g

/-- The call builds a request: the lookup succeeds, so the call reaches its `snprintf`. -/
def SendCall.builds (c : SendCall) : Bool := c.env.host.isSome

/-- The globals after a sequence of builder calls. -/
def after_calls : List SendCall → Globals → Globals
  | [], g => g
  | c :: cs, g => after_calls cs (send_request c g).2.2

/-- The CSeq numbers of the requests built by a sequence of builder calls, in order: the value
`cseq` holds when a call that builds a request is made, which is the value its `snprintf`
formats into the CSeq header. -/
def cseq_numbers : List SendCall → Globals → List Int
  | [], _ => []
  | c :: cs, g =>
    if c.builds then g.cseq :: cseq_numbers cs (send_request c g).2.2
    else cseq_numbers cs (send_request c g).2.2

/-- A call of `send_sip_options` on socket 54 that resolves the server and sends. -/
def options_call : SendCall :=
  { method := Method.options, sock := 54,
    env := { host := some 16909060, ip := 167772161, sendto_ret := 300 } }

/-! ## Probe driver -/

/-- The C string the caller hands to `handle_sip_response` after `rx_buffer[len] = 0`: the
received bytes up to the first NUL among them. -/
def received (r : RecvEnv) : CStr :=
  (r.buf.take r.len.toNat).takeWhile (fun c => c ≠ '\x00')

/-- What the platform answers during one iteration of the probe loop. -/
structure CycleEnv where
  /-- The flag `wifi_connected` as read at the top of the iteration. -/
  wifi_connected : Bool
  /-- The value returned by `socket`. -/
  socket_ret : Int
  /-- The three `esp_random()` values of the first `generate_random_ids()`. -/
  r1 : Nat
  r2 : Nat
  r3 : Nat
  options : SendEnv
  options_recv : RecvEnv
  /-- The three `esp_random()` values of the second `generate_random_ids()`. -/
  r4 : Nat
  r5 : Nat
  r6 : Nat
  register : SendEnv
  register_recv : RecvEnv
  deriving DecidableEq, Repr

/-- The variables the task loop carries from one iteration to the next. -/
structure TaskState where
  g : Globals
  test_cycle : Int
  deriving DecidableEq, Repr

/-- The wait for a reply that follows a successful send ("Set timeout" to the log line after
`recvfrom`): the new value of `response_received` and the events. -/
def await_reply (sock : Int) (r : RecvEnv) (none_msg : LogMsg) : Bool × List Event :=
  if r.len > 0 then
    (true, [Event.setsockopt sock SIP_TIMEOUT, Event.recvfrom sock r.len,
      Event.log (LogMsg.response (handle_sip_response (received r)))])
  else
    (false, [Event.setsockopt sock SIP_TIMEOUT, Event.recvfrom sock r.len, Event.log none_msg])

/-- "Test 1: Send SIP OPTIONS": `response_received`, events, globals afterwards. -/
def options_test (sock : Int) (env : CycleEnv) (g : Globals) : Bool × List Event × Globals :=
  if (send_sip_options sock env.options g).1 then
    ((await_reply sock env.options_recv LogMsg.no_options_response).1,
     (send_sip_options sock env.options g).2.1 ++
       (await_reply sock env.options_recv LogMsg.no_options_response).2,
     (send_sip_options sock env.options g).2.2)
  else
    (false,
     (send_sip_options sock env.options g).2.1 ++ [Event.log LogMsg.failed_to_send_options],
     (send_sip_options sock env.options g).2.2)

/-- "Test 2: Try SIP REGISTER if OPTIONS failed", entered with `response_received` false. -/
def register_test (sock : Int) (env : CycleEnv) (g : Globals) : Bool × List Event × Globals :=
  if (send_sip_register sock env.register (generate_random_ids env.r4 env.r5 env.r6 g)).1 then
    ((await_reply sock env.register_recv LogMsg.no_register_response).1,
     [Event.random_ids] ++
       (send_sip_register sock env.register (generate_random_ids env.r4 env.r5 env.r6 g)).2.1 ++
       (await_reply sock env.register_recv LogMsg.no_register_response).2,
     (send_sip_register sock env.register (generate_random_ids env.r4 env.r5 env.r6 g)).2.2)
  else
    (false,
     [Event.random_ids] ++
       (send_sip_register sock env.register (generate_random_ids env.r4 env.r5 env.r6 g)).2.1,
     (send_sip_register sock env.register (generate_random_ids env.r4 env.r5 env.r6 g)).2.2)

/-- The two tests in sequence: `response_received` after them, events, globals afterwards. -/
def both_tests (sock : Int) (env : CycleEnv) (g : Globals) : Bool × List Event × Globals :=
  if (options_test sock env g).1 then
    options_test sock env g
  else
    ((register_test sock env (options_test sock env g).2.2).1,
     (options_test sock env g).2.1 ++ (register_test sock env (options_test sock env g).2.2).2.1,
     (register_test sock env (options_test sock env g).2.2).2.2)

/-- The report and the wait that end a cycle whose socket was created. -/
def report (response_received : Bool) : List Event :=
  if response_received then [Event.log LogMsg.working_correctly, Event.delay 30000]
  else [Event.log LogMsg.no_response_from_server, Event.delay 30000]

/-- One iteration of the `while (1)` loop of `sip_client_task`. -/
def loop_iteration (env : CycleEnv) (s : TaskState) : List Event × TaskState :=
  if env.wifi_connected = false then
    ([Event.log LogMsg.wifi_disconnected, Event.delay 5000], s)
  else if (create_udp_socket env.socket_ret).1 < 0 then
    ([Event.log (LogMsg.test_cycle (wrap_int32 (s.test_cycle + 1)))] ++
       (create_udp_socket env.socket_ret).2 ++
       [Event.log LogMsg.failed_to_create_socket, Event.delay 10000],
     { s with test_cycle := wrap_int32 (s.test_cycle + 1) })
  else
    ([Event.log (LogMsg.test_cycle (wrap_int32 (s.test_cycle + 1)))] ++
       (create_udp_socket env.socket_ret).2 ++ [Event.random_ids] ++
       (both_tests (create_udp_socket env.socket_ret).1 env
         (generate_random_ids env.r1 env.r2 env.r3 s.g)).2.1 ++
       [Event.close (create_udp_socket env.socket_ret).1] ++
       report (both_tests (create_udp_socket env.socket_ret).1 env
         (generate_random_ids env.r1 env.r2 env.r3 s.g)).1,
     { g := (both_tests (create_udp_socket env.socket_ret).1 env
         (generate_random_ids env.r1 env.r2 env.r3 s.g)).2.2,
       test_cycle := wrap_int32 (s.test_cycle + 1) })

/-- The loop of `sip_client_task` over the iterations whose platform answers are listed: the
loop has no exit, so every listed iteration runs, each from the state the previous one left. -/
def sip_client_loop : List CycleEnv → TaskState → List Event × TaskState
  | [], s => ([], s)
  | env :: envs, s =>
    ((loop_iteration env s).1 ++ (sip_client_loop envs (loop_iteration env s).2).1,
     (sip_client_loop envs (loop_iteration env s).2).2)

/-- The events of a trace that follow the first event satisfying `p`. -/
def events_after (p : Event → Bool) (tr : List Event) : List Event :=
  (tr.dropWhile (fun e => !p e)).drop 1

/-- The events of a trace that precede the first event satisfying `p`. -/
def events_before (p : Event → Bool) (tr : List Event) : List Event :=
  tr.takeWhile (fun e => !p e)

def Event.is_call_register : Event → Bool
  | Event.call_register _ => true
  | _ => false

def Event.is_call_options : Event → Bool
  | Event.call_options _ => true
  | _ => false

def Event.is_ret_options : Event → Bool
  | Event.ret_options _ => true
  | _ => false

def Event.is_socket : Event → Bool
  | Event.socket _ => true
  | _ => false

def Event.is_close : Event → Bool
  | Event.close _ => true
  | _ => false

def Event.is_delay : Event → Bool
  | Event.delay _ => true
  | _ => false

def Event.is_sendto : Event → Bool
  | Event.sendto _ _ _ => true
  | _ => false

def Event.is_recvfrom : Event → Bool
  | Event.recvfrom _ _ => true
  | _ => false

/-- The event is one of the two lines that report the outcome of a cycle. -/
def Event.is_report : Event → Bool
  | Event.log LogMsg.working_correctly => true
  | Event.log LogMsg.no_response_from_server => true
  | _ => false

/-- The socket an event operates on, for the calls that take one. -/
def Event.sock : Event → Option Int
  | Event.setsockopt s _ => some s
  | Event.close s => some s
  | Event.call_options s => some s
  | Event.call_register s => some s
  | Event.sendto s _ _ => some s
  | Event.recvfrom s _ => some s
  | _ => none

/-- The event is one a cycle performs between creating its socket and closing it: it creates
no socket, closes none, does not wait, and any socket it operates on is `sock`. -/
def Event.in_body (sock : Int) (e : Event) : Bool :=
  !e.is_socket && !e.is_close && !e.is_delay && (e.sock = none || e.sock = some sock)

/-- The time an event waits: the argument of a delay, 0 for any other event. -/
def Event.delay_ms : Event → Nat
  | Event.delay ms => ms
  | _ => 0

/-- The time a trace spends in `vTaskDelay`, in milliseconds. -/
def cooldown : List Event → Nat
  | [] => 0
  | e :: es => e.delay_ms + cooldown es

/-- The task state when the loop is entered: `test_cycle = 0`. -/
def TaskState.init : TaskState := { g := Globals.init, test_cycle := 0 }

/-- Scenario B: the link is up, OPTIONS is sent and times out, REGISTER is sent and the server
answers `SIP/2.0 401 Unauthorized`. -/
def scenario_b : CycleEnv :=
  { wifi_connected := true, socket_ret := 54, r1 := 48879, r2 := 305419896, r3 := 12648430,
    options := { host := some 16909060, ip := 167772161, sendto_ret := 300 },
    options_recv := { len := -1, buf := [] },
    r4 := 51966, r5 := 2882400001, r6 := 3735928559,
    register := { host := some 16909060, ip := 167772161, sendto_ret := 400 },
    register_recv := { len := 24, buf := "SIP/2.0 401 Unauthorized".toList } }

/-- Scenario A: the link is up, OPTIONS is sent and the server answers `SIP/2.0 200 OK`. -/
def scenario_a : CycleEnv :=
  { scenario_b with options_recv := { len := 16, buf := "SIP/2.0 200 OK\r\n".toList } }

/-- A cycle whose `socket` call fails. -/
def socket_failure : CycleEnv := { scenario_b with socket_ret := -1 }

/-- Scenario D: the socket is created and the server name resolves for neither request. -/
def resolution_failure : CycleEnv :=
  { scenario_b with
    options := { host := none, ip := 167772161, sendto_ret := 0 },
    register := { host := none, ip := 167772161, sendto_ret := 0 } }

/-! ## Link events -/

/-- The events delivered to `event_handler`. -/
inductive LinkEvent
  | sta_start          -- WIFI_EVENT / WIFI_EVENT_STA_START
  | sta_disconnected   -- WIFI_EVENT / WIFI_EVENT_STA_DISCONNECTED
  | got_ip             -- IP_EVENT / IP_EVENT_STA_GOT_IP
  | other              -- any other event
  deriving DecidableEq, Repr

/-- The calls `event_handler` makes. -/
inductive LinkAction
  | esp_wifi_connect
  | set_fail_bit        -- xEventGroupSetBits(s_wifi_event_group, WIFI_FAIL_BIT)
  | set_connected_bit   -- xEventGroupSetBits(s_wifi_event_group, WIFI_CONNECTED_BIT)
  deriving DecidableEq, Repr

/-- The link state: `s_retry_num`, `wifi_connected` and the two bits of `s_wifi_event_group`. -/
structure LinkState where
  s_retry_num : Int
  wifi_connected : Bool
  connected_bit : Bool
  fail_bit : Bool
  deriving DecidableEq, Repr

/-- Static initialisation of the link state. -/
def LinkState.init : LinkState :=
  { s_retry_num := 0, wifi_connected := false, connected_bit := false, fail_bit := false }

/-- `event_handler`: the calls it makes and the link state afterwards.  The increment is guarded
by `s_retry_num < 10`, so it cannot overflow. -/
def event_handler (e : LinkEvent) (st : LinkState) : List LinkAction × LinkState :=
  match e with
  | LinkEvent.sta_start => ([LinkAction.esp_wifi_connect], st)
  | LinkEvent.sta_disconnected =>
    if st.s_retry_num < 10 then
      ([LinkAction.esp_wifi_connect],
       { st with s_retry_num := st.s_retry_num + 1, wifi_connected := false })
    else
      ([LinkAction.set_fail_bit], { st with fail_bit := true, wifi_connected := false })
  | LinkEvent.got_ip =>
    ([LinkAction.set_connected_bit],
     { st with s_retry_num := 0, wifi_connected := true, connected_bit := true })
  | LinkEvent.other => ([], st)

/-- The handler run over a sequence of events: each event with the calls it caused, and the
final link state. -/
def handle_events : List LinkEvent → LinkState → List (LinkEvent × List LinkAction) × LinkState
  | [], st => ([], st)
  | e :: es, st =>
    ((e, (event_handler e st).1) :: (handle_events es (event_handler e st).2).1,
     (handle_events es (event_handler e st).2).2)

/-- The reconnection attempts (retries) made since the last got-IP event (since the start when
there is none): the `esp_wifi_connect()` calls issued in answer to disconnect events.  The
connect issued in answer to a start event is not among them. -/
def retries_since_got_ip (log : List (LinkEvent × List LinkAction)) : Nat :=
  ((log.reverse.takeWhile (fun p => p.1 ≠ LinkEvent.got_ip)).filter
    (fun p => p.1 = LinkEvent.sta_disconnected ∧ LinkAction.esp_wifi_connect ∈ p.2)).length

/-- The connection attempts made since the last got-IP event (since the start when there is
none): every `esp_wifi_connect()` call, whichever event it answers. -/
def connection_attempts_since_got_ip (log : List (LinkEvent × List LinkAction)) : Nat :=
  ((log.reverse.takeWhile (fun p => p.1 ≠ LinkEvent.got_ip)).filter
    (fun p => LinkAction.esp_wifi_connect ∈ p.2)).length

/-! # Properties -/

/-! ## Formatting lemmas -/

theorem toDigitsCore_mem (b : Nat) (hb : 0 < b) (fuel n : Nat) (acc : CStr) (c : Char)
    (hc : c ∈ Nat.toDigitsCore b fuel n acc) : c ∈ acc ∨ ∃ d, d < b ∧ c = Nat.digitChar d := by
  induction fuel generalizing n acc with
  | zero => left; simpa [Nat.toDigitsCore] using hc
  | succ k ih =>
    unfold Nat.toDigitsCore at hc
    simp only at hc
    split at hc
    · rcases List.mem_cons.mp hc with h | h
      · right; exact ⟨n % b, Nat.mod_lt _ hb, h⟩
      · left; exact h
    · rcases ih _ _ hc with h | h
      · rcases List.mem_cons.mp h with h | h
        · right; exact ⟨n % b, Nat.mod_lt _ hb, h⟩
        · left; exact h
      · right; exact h

theorem digitChar_dec (d : Nat) (hd : d < 10) : Nat.digitChar d ∈ "0123456789".toList := by
  interval_cases d <;> decide

theorem digitChar_hex (d : Nat) (hd : d < 16) : Nat.digitChar d ∈ "0123456789abcdef".toList := by
  interval_cases d <;> decide

theorem fmt_d_mem (v : Int) (c : Char) (hc : c ∈ fmt_d v) : c ∈ "-0123456789".toList := by
  have key : ∀ n : Nat, ∀ c ∈ Nat.toDigits 10 n, c ∈ "-0123456789".toList := by
    intro n c hc
    rcases toDigitsCore_mem 10 (by decide) _ _ _ c hc with h | ⟨d, hd, rfl⟩
    · simp at h
    · exact List.mem_cons_of_mem _ (digitChar_dec d hd)
  cases v with
  | ofNat n => exact key n c hc
  | negSucc n =>
    rcases List.mem_cons.mp hc with h | h
    · subst h; decide
    · exact key _ c h

theorem fmt_d_no_crlf (v : Int) : no_crlf (fmt_d v) := by
  intro c hc
  have all : ∀ c ∈ "-0123456789".toList, c ≠ '\r' ∧ c ≠ '\n' := by decide
  exact all c (fmt_d_mem v c hc)

/-! ## The blank line occurs once, at the end (C1) -/

theorem clash_sound (p s : CStr) (h : clash p s = true) (rest post : CStr) :
    s ++ rest ≠ p ++ post := by
  induction p generalizing s with
  | nil => cases s <;> simp [clash] at h
  | cons a p ih =>
    cases s with
    | nil => simp [clash] at h
    | cons c cs =>
      simp only [clash, Bool.or_eq_true, bne_iff_ne, ne_eq] at h
      intro heq
      simp only [List.cons_append, List.cons.injEq] at heq
      rcases h with h | h
      · exact h heq.1.symm
      · exact ih cs h heq.2

theorem skips_split (s : CStr) (hs : skips s = true) (pre post rest : CStr)
    (h : s ++ rest = pre ++ blank_line ++ post) :
    ∃ mid, pre = s ++ mid ∧ rest = mid ++ blank_line ++ post := by
  induction s generalizing pre with
  | nil => exact ⟨pre, rfl, h⟩
  | cons c cs ih =>
    simp only [skips, Bool.and_eq_true] at hs
    cases pre with
    | nil =>
      exfalso
      exact clash_sound blank_line (c :: cs) hs.1 rest post (by simpa using h)
    | cons d pre =>
      simp only [List.cons_append, List.cons.injEq] at h
      obtain ⟨mid, h1, h2⟩ := ih hs.2 pre h.2
      exact ⟨mid, by simp [h.1, h1], h2⟩

theorem no_crlf_skips (s : CStr) (hs : no_crlf s) : skips s = true := by
  induction s with
  | nil => rfl
  | cons c cs ih =>
    have hc : c ≠ '\r' := (hs c (List.mem_cons_self _ _)).1
    have ht : skips cs = true := ih (fun x hx => hs x (List.mem_cons_of_mem _ hx))
    simp only [skips, Bool.and_eq_true]
    refine ⟨?_, ht⟩
    show clash ('\r' :: "\n\r\n".toList) (c :: cs) = true
    simp only [clash, Bool.or_eq_true, bne_iff_ne, ne_eq]
    exact Or.inl (fun h => hc h.symm)

theorem only_at_end_blank : only_at_end blank_line := by
  intro pre post h
  have hl := congrArg List.length h
  simp only [List.length_append] at hl
  have : post.length = 0 := by omega
  exact List.length_eq_zero.mp this

theorem only_at_end_append (s rest : CStr) (hs : skips s = true) (hr : only_at_end rest) :
    only_at_end (s ++ rest) := by
  intro pre post h
  obtain ⟨mid, _, h2⟩ := skips_split s hs pre post rest h
  exact hr mid post h2

theorem only_at_end_param (s rest : CStr) (hs : no_crlf s) (hr : only_at_end rest) :
    only_at_end (s ++ rest) :=
  only_at_end_append s rest (no_crlf_skips s hs) hr

theorem only_at_end_lit2 (a b rest : CStr) (hs : skips (a ++ b) = true) (hr : only_at_end rest) :
    only_at_end (a ++ (b ++ rest)) := by
  rw [← List.append_assoc]
  exact only_at_end_append _ rest hs hr

theorem options_format_only_at_end (server : CStr) (port : Int)
    (local_ip branch user tag callid : CStr) (seq : Int)
    (h1 : no_crlf server) (h2 : no_crlf local_ip) (h3 : no_crlf branch) (h4 : no_crlf user)
    (h5 : no_crlf tag) (h6 : no_crlf callid) :
    only_at_end (options_format server port local_ip branch user tag callid seq) := by
  have hp := fmt_d_no_crlf port
  have hq := fmt_d_no_crlf seq
  have tail : only_at_end (" OPTIONS\r\n".toList ++ ("Max-Forwards: 70\r\n".toList ++
      ("User-Agent: ESP32-S3-SIP-Client/1.0\r\n".toList ++
      ("Accept: application/sdp, text/plain\r\n".toList ++
      ("Content-Length: 0\r\n".toList ++ "\r\n".toList))))) :=
    only_at_end_append (" OPTIONS\r\nMax-Forwards: 70\r\nUser-Agent: ESP32-S3-SIP-Client/1.0\r\nAccept: application/sdp, text/plain\r\nContent-Length: 0".toList)
      blank_line (by decide) only_at_end_blank
  simp only [options_format, List.append_assoc]
  refine only_at_end_append _ _ (by decide) ?_
  refine only_at_end_param _ _ h1 ?_
  refine only_at_end_append _ _ (by decide) ?_
  refine only_at_end_param _ _ hp ?_
  refine only_at_end_lit2 _ _ _ (by decide) ?_
  refine only_at_end_param _ _ h2 ?_
  refine only_at_end_append _ _ (by decide) ?_
  refine only_at_end_param _ _ h3 ?_
  refine only_at_end_lit2 _ _ _ (by decide) ?_
  refine only_at_end_param _ _ h4 ?_
  refine only_at_end_append _ _ (by decide) ?_
  refine only_at_end_param _ _ h1 ?_
  refine only_at_end_append _ _ (by decide) ?_
  refine only_at_end_param _ _ hp ?_
  refine only_at_end_append _ _ (by decide) ?_
  refine only_at_end_param _ _ h5 ?_
  refine only_at_end_lit2 _ _ _ (by decide) ?_
  refine only_at_end_param _ _ h1 ?_
  refine only_at_end_append _ _ (by decide) ?_
  refine only_at_end_param _ _ hp ?_
  refine only_at_end_lit2 _ _ _ (by decide) ?_
  refine only_at_end_param _ _ h6 ?_
  refine only_at_end_lit2 _ _ _ (by decide) ?_
  refine only_at_end_param _ _ hq ?_
  exact tail

theorem register_format_only_at_end (server : CStr) (port : Int)
    (local_ip branch user tag callid : CStr) (seq : Int)
    (h1 : no_crlf server) (h2 : no_crlf local_ip) (h3 : no_crlf branch) (h4 : no_crlf user)
    (h5 : no_crlf tag) (h6 : no_crlf callid) :
    only_at_end (register_format server port local_ip branch user tag callid seq) := by
  have hp := fmt_d_no_crlf port
  have hq := fmt_d_no_crlf seq
  have tail : only_at_end (":5060>;expires=300\r\n".toList ++ ("Max-Forwards: 70\r\n".toList ++
      ("User-Agent: ESP32-S3-SIP-Client/1.0\r\n".toList ++
      ("Allow: INVITE,ACK,CANCEL,BYE,NOTIFY,REFER,MESSAGE,OPTIONS,INFO,SUBSCRIBE\r\n".toList ++
      ("Expires: 300\r\n".toList ++
      ("Content-Length: 0\r\n".toList ++ "\r\n".toList)))))) :=
    only_at_end_append (":5060>;expires=300\r\nMax-Forwards: 70\r\nUser-Agent: ESP32-S3-SIP-Client/1.0\r\nAllow: INVITE,ACK,CANCEL,BYE,NOTIFY,REFER,MESSAGE,OPTIONS,INFO,SUBSCRIBE\r\nExpires: 300\r\nContent-Length: 0".toList)
      blank_line (by decide) only_at_end_blank
  simp only [register_format, List.append_assoc]
  refine only_at_end_append _ _ (by decide) ?_
  refine only_at_end_param _ _ h1 ?_
  refine only_at_end_append _ _ (by decide) ?_
  refine only_at_end_param _ _ hp ?_
  refine only_at_end_lit2 _ _ _ (by decide) ?_
  refine only_at_end_param _ _ h2 ?_
  refine only_at_end_append _ _ (by decide) ?_
  refine only_at_end_param _ _ h3 ?_
  refine only_at_end_lit2 _ _ _ (by decide) ?_
  refine only_at_end_param _ _ h4 ?_
  refine only_at_end_append _ _ (by decide) ?_
  refine only_at_end_param _ _ h1 ?_
  refine only_at_end_append _ _ (by decide) ?_
  refine only_at_end_param _ _ hp ?_
  refine only_at_end_append _ _ (by decide) ?_
  refine only_at_end_param _ _ h5 ?_
  refine only_at_end_lit2 _ _ _ (by decide) ?_
  refine only_at_end_param _ _ h4 ?_
  refine only_at_end_append _ _ (by decide) ?_
  refine only_at_end_param _ _ h1 ?_
  refine only_at_end_append _ _ (by decide) ?_
  refine only_at_end_param _ _ hp ?_
  refine only_at_end_lit2 _ _ _ (by decide) ?_
  refine only_at_end_param _ _ h6 ?_
  refine only_at_end_lit2 _ _ _ (by decide) ?_
  refine only_at_end_param _ _ hq ?_
  refine only_at_end_lit2 _ _ _ (by decide) ?_
  refine only_at_end_param _ _ h4 ?_
  refine only_at_end_append _ _ (by decide) ?_
  refine only_at_end_param _ _ h2 ?_
  exact tail

theorem options_format_suffix (server : CStr) (port : Int)
    (local_ip branch user tag callid : CStr) (seq : Int) :
    "Content-Length: 0\r\n\r\n".toList <:+
      options_format server port local_ip branch user tag callid seq := by
  have e : "Content-Length: 0\r\n\r\n".toList =
      "Content-Length: 0\r\n".toList ++ "\r\n".toList := by decide
  rw [e]
  unfold options_format
  exact ⟨_, (List.append_assoc _ _ _).symm⟩

theorem register_format_suffix (server : CStr) (port : Int)
    (local_ip branch user tag callid : CStr) (seq : Int) :
    "Content-Length: 0\r\n\r\n".toList <:+
      register_format server port local_ip branch user tag callid seq := by
  have e : "Content-Length: 0\r\n\r\n".toList =
      "Content-Length: 0\r\n".toList ++ "\r\n".toList := by decide
  rw [e]
  unfold register_format
  exact ⟨_, (List.append_assoc _ _ _).symm⟩

theorem snprintf_fits (size : Nat) (text : CStr) (h : text.length ≤ size - 1) :
    snprintf size text = text :=
  List.take_of_length_le h

/-- C1: for every server host, port, local IP, user name, call identifier, tag and branch
identifier without CR or LF and every sequence number: when the formatted OPTIONS text fits the
512-byte buffer (at most 511 characters) the text built by `send_sip_options` ends with
`Content-Length: 0` followed by one blank line and the blank line occurs nowhere else in it; the
same holds for the REGISTER text built by `send_sip_register` when it fits its 1024-byte buffer
(at most 1023 characters). -/
theorem builders_end_with_single_blank_line (server : CStr) (port : Int)
    (local_ip branch user tag callid : CStr) (seq : Int)
    (h1 : no_crlf server) (h2 : no_crlf local_ip) (h3 : no_crlf branch) (h4 : no_crlf user)
    (h5 : no_crlf tag) (h6 : no_crlf callid) :
    ((options_format server port local_ip branch user tag callid seq).length ≤ 511 →
      single_blank_line_at_end (options_msg server port local_ip branch user tag callid seq)) ∧
    ((register_format server port local_ip branch user tag callid seq).length ≤ 1023 →
      single_blank_line_at_end (register_msg server port local_ip branch user tag callid seq)) := by
  constructor
  · intro hfit
    rw [options_msg, snprintf_fits _ _ hfit]
    exact ⟨options_format_suffix .., options_format_only_at_end _ _ _ _ _ _ _ _ h1 h2 h3 h4 h5 h6⟩
  · intro hfit
    rw [register_msg, snprintf_fits _ _ hfit]
    exact ⟨register_format_suffix .., register_format_only_at_end _ _ _ _ _ _ _ _ h1 h2 h3 h4 h5 h6⟩

set_option maxRecDepth 100000 in
theorem builders_end_with_single_blank_line_witness :
    single_blank_line_at_end (options_msg SIP_SERVER SIP_PORT "192.168.1.23".toList
        "z9hG4bK0000beef".toList SIP_USER "00c0ffee".toList "0000beef12345678@esp32s3".toList 1) ∧
    single_blank_line_at_end (register_msg SIP_SERVER SIP_PORT "192.168.1.23".toList
        "z9hG4bK0000beef".toList SIP_USER "00c0ffee".toList "0000beef12345678@esp32s3".toList 2) :=
  ⟨(builders_end_with_single_blank_line SIP_SERVER SIP_PORT "192.168.1.23".toList
      "z9hG4bK0000beef".toList SIP_USER "00c0ffee".toList "0000beef12345678@esp32s3".toList 1
      (by decide) (by decide) (by decide) (by decide) (by decide) (by decide)).1 (by decide),
   (builders_end_with_single_blank_line SIP_SERVER SIP_PORT "192.168.1.23".toList
      "z9hG4bK0000beef".toList SIP_USER "00c0ffee".toList "0000beef12345678@esp32s3".toList 2
      (by decide) (by decide) (by decide) (by decide) (by decide) (by decide)).2 (by decide)⟩

/-! ## Response classifier (C2) -/

theorem strncmp_eq_zero (lit : CStr) (hl : ∀ c ∈ lit, c.toNat ≠ 0) (s : CStr) :
    strncmp s lit lit.length = 0 ↔ lit <+: s := by
  induction lit generalizing s with
  | nil => simp [strncmp]
  | cons b bs ih =>
    have hb : b.toNat ≠ 0 := hl b (List.mem_cons_self _ _)
    have hbs : ∀ c ∈ bs, c.toNat ≠ 0 := fun c hc => hl c (List.mem_cons_of_mem _ hc)
    cases s with
    | nil =>
      simp only [List.length_cons, strncmp, List.prefix_nil, reduceCtorEq, iff_false]
      omega
    | cons a as =>
      simp only [List.length_cons, strncmp]
      by_cases hab : a = b
      · subst hab
        simp only [if_true, ih hbs as]
        exact (List.cons_prefix_cons.trans (by simp)).symm
      · simp only [hab, if_false]
        constructor
        · intro h
          exfalso
          apply hab
          have h2 : a.toNat = b.toNat := by omega
          have h3 := congrArg Char.ofNat h2
          simpa [Char.ofNat_toNat] using h3
        · intro h
          exact absurd (List.cons_prefix_cons.mp h).1.symm hab

theorem sip_prefix_test (s : CStr) :
    strncmp s "SIP/2.0 ".toList 8 = 0 ↔ "SIP/2.0 ".toList <+: s :=
  strncmp_eq_zero "SIP/2.0 ".toList (by decide) s

theorem code_chain (code : Int) :
    (if code = 200 then Category.success
     else if code = 401 then Category.auth_required
     else if code = 403 then Category.forbidden
     else if code = 404 then Category.not_found
     else if code = 407 then Category.proxy_auth_required
     else if code = 408 then Category.timeout_code
     else if code = 500 then Category.server_error
     else Category.other_code) = named_category code := by
  by_cases h1 : code = 200
  · subst h1; rfl
  by_cases h2 : code = 401
  · subst h2; rfl
  by_cases h3 : code = 403
  · subst h3; rfl
  by_cases h4 : code = 404
  · subst h4; rfl
  by_cases h5 : code = 407
  · subst h5; rfl
  by_cases h6 : code = 408
  · subst h6; rfl
  by_cases h7 : code = 500
  · subst h7; rfl
  simp only [h1, h2, h3, h4, h5, h6, h7, if_false]
  unfold named_category
  split <;> first | rfl | (exfalso; omega)

theorem handle_sip_response_of_match (rest : CStr) :
    handle_sip_response ("SIP/2.0 ".toList ++ rest) = named_category (atoi rest) := by
  have h : strncmp ("SIP/2.0 ".toList ++ rest) "SIP/2.0 ".toList 8 = 0 :=
    (sip_prefix_test _).mpr (List.prefix_append _ _)
  have hd : ("SIP/2.0 ".toList ++ rest).drop 8 = rest := List.drop_left' rfl
  unfold handle_sip_response
  rw [if_pos h, hd]
  exact code_chain _

theorem toDigitsCore_acc (b fuel n : Nat) (acc : CStr) :
    Nat.toDigitsCore b fuel n acc = Nat.toDigitsCore b fuel n [] ++ acc := by
  induction fuel generalizing n acc with
  | zero => simp [Nat.toDigitsCore]
  | succ k ih =>
    unfold Nat.toDigitsCore
    simp only
    split
    · simp
    · rw [ih _ (_ :: acc), ih _ [_]]
      simp

theorem digit_facts : ∀ c ∈ "0123456789".toList,
    isdigit c = true ∧ isspace c = false ∧ c ≠ '-' ∧ c ≠ '+' := by decide

theorem digitChar_value (d : Nat) (hd : d < 10) :
    (Nat.digitChar d).toNat - '0'.toNat = d := by
  interval_cases d <;> decide

theorem toDigits_digits (n : Nat) : ∀ c ∈ Nat.toDigits 10 n, c ∈ "0123456789".toList := by
  intro c hc
  rcases toDigitsCore_mem 10 (by decide) _ _ _ c hc with h | ⟨d, hd, rfl⟩
  · simp at h
  · exact digitChar_dec d hd

theorem digits_value_append (l1 l2 : CStr) (acc : Nat) (h : ∀ c ∈ l1, isdigit c = true) :
    digits_value (l1 ++ l2) acc = digits_value l2 (digits_value l1 acc) := by
  induction l1 generalizing acc with
  | nil => rfl
  | cons c cs ih =>
    have hc : isdigit c = true := h c (List.mem_cons_self _ _)
    simp only [List.cons_append, digits_value, hc, if_true]
    exact ih _ (fun x hx => h x (List.mem_cons_of_mem _ hx))

theorem digits_value_toDigitsCore (fuel n : Nat) (h : n < fuel) :
    digits_value (Nat.toDigitsCore 10 fuel n []) 0 = n := by
  induction fuel generalizing n with
  | zero => omega
  | succ k ih =>
    have hd : isdigit (Nat.digitChar (n % 10)) = true :=
      (digit_facts _ (digitChar_dec _ (Nat.mod_lt _ (by decide)))).1
    have hv := digitChar_value (n % 10) (Nat.mod_lt _ (by decide))
    unfold Nat.toDigitsCore
    simp only
    split
    · simp only [digits_value, hd, if_true, hv]
      omega
    · rw [toDigitsCore_acc]
      rw [digits_value_append _ _ _ (fun c hc => (digit_facts c (by
        rcases toDigitsCore_mem 10 (by decide) _ _ _ c hc with h | ⟨d, hd, rfl⟩
        · simp at h
        · exact digitChar_dec d hd)).1)]
      rw [ih (n / 10) (by omega)]
      simp only [digits_value, hd, if_true, hv]
      omega

theorem toDigits_ne_nil (n : Nat) : Nat.toDigits 10 n ≠ [] := by
  unfold Nat.toDigits Nat.toDigitsCore
  simp only
  split
  · simp
  · rw [toDigitsCore_acc]; simp

theorem digits_value_stop (tail : CStr) (acc : Nat) (h : ∀ c ∈ tail.head?, isdigit c = false) :
    digits_value tail acc = acc := by
  cases tail with
  | nil => rfl
  | cons c cs =>
    have hc : isdigit c = false := h c (by simp)
    simp [digits_value, hc]

theorem atoi_decimal (n : Nat) (tail : CStr) (h : ∀ c ∈ tail.head?, isdigit c = false) :
    atoi (Nat.toDigits 10 n ++ tail) = min (n : Int) 2147483647 := by
  have hv : digits_value (Nat.toDigits 10 n ++ tail) 0 = n := by
    rw [digits_value_append _ _ _ (fun c hc => (digit_facts c (toDigits_digits n c hc)).1)]
    rw [Nat.toDigits, digits_value_toDigitsCore _ _ (Nat.lt_succ_self n)]
    exact digits_value_stop tail n h
  have hall := toDigits_digits n
  have hne := toDigits_ne_nil n
  revert hv hall hne
  generalize Nat.toDigits 10 n = ds
  intro hv hall hne
  cases ds with
  | nil => exact absurd rfl hne
  | cons c cs =>
    obtain ⟨_, hsp, hm, hp⟩ := digit_facts c (hall c (List.mem_cons_self _ _))
    unfold atoi
    simp only [List.cons_append, List.dropWhile_cons, hsp, Bool.false_eq_true, if_false, hm, hp]
    simp only [List.cons_append] at hv
    rw [hv]

theorem named_category_clamp (v : Int) :
    named_category (min v 2147483647) = named_category v := by
  rcases le_total v 2147483647 with h | h
  · rw [min_eq_left h]
  · rw [min_eq_right h, ← code_chain v]
    have e : named_category 2147483647 = Category.other_code := by decide
    rw [e]
    split_ifs <;> first | rfl | omega

theorem handle_sip_response_decimal (n : Nat) (tail : CStr)
    (h : ∀ c ∈ tail.head?, isdigit c = false) :
    handle_sip_response ("SIP/2.0 ".toList ++ Nat.toDigits 10 n ++ tail) = named_category n := by
  rw [List.append_assoc, handle_sip_response_of_match, atoi_decimal n tail h]
  exact named_category_clamp n

/-- C2: a buffer that does not begin with the 8 characters `SIP/2.0 ` is classified as a request,
not a response; a buffer that begins with them is classified by the category named for the
integer `atoi` reads after the prefix (200 success, 401 auth-required, 403 forbidden, 404
not-found, 407 proxy-auth-required, 408 timeout-code, 500 server-error, any other value
other-numeric-code); when the prefix is followed by the decimal digits of `n` and then by
something that is not a digit, that integer is `n`.  In particular a buffer beginning
`SIP/2.0 200 OK` CR LF is classified success and one beginning `SIP/2.0 401 ` auth-required. -/
theorem handle_sip_response_classifies :
    (∀ response : CStr, ¬ "SIP/2.0 ".toList <+: response →
      handle_sip_response response = Category.request_not_response) ∧
    (∀ rest : CStr,
      handle_sip_response ("SIP/2.0 ".toList ++ rest) = named_category (atoi rest)) ∧
    (∀ (n : Nat) (tail : CStr), (∀ c ∈ tail.head?, isdigit c = false) →
      handle_sip_response ("SIP/2.0 ".toList ++ Nat.toDigits 10 n ++ tail) =
        named_category n) ∧
    (∀ rest : CStr,
      handle_sip_response ("SIP/2.0 200 OK\r\n".toList ++ rest) = Category.success) ∧
    (∀ rest : CStr,
      handle_sip_response ("SIP/2.0 401 ".toList ++ rest) = Category.auth_required) := by
  refine ⟨?_, handle_sip_response_of_match, handle_sip_response_decimal, ?_, ?_⟩
  · intro response h
    unfold handle_sip_response
    rw [if_neg (fun e => h ((sip_prefix_test response).mp e))]
  · intro rest
    have e : "SIP/2.0 200 OK\r\n".toList ++ rest =
        "SIP/2.0 ".toList ++ Nat.toDigits 10 200 ++ (" OK\r\n".toList ++ rest) := by
      have e1 : "SIP/2.0 200 OK\r\n".toList =
          "SIP/2.0 ".toList ++ Nat.toDigits 10 200 ++ " OK\r\n".toList := by decide
      rw [e1, List.append_assoc _ _ rest]
    rw [e, handle_sip_response_decimal 200 _ (by intro c hc; simp at hc; subst hc; decide)]
    decide
  · intro rest
    have e : "SIP/2.0 401 ".toList ++ rest =
        "SIP/2.0 ".toList ++ Nat.toDigits 10 401 ++ (" ".toList ++ rest) := by
      have e1 : "SIP/2.0 401 ".toList =
          "SIP/2.0 ".toList ++ Nat.toDigits 10 401 ++ " ".toList := by decide
      rw [e1, List.append_assoc _ _ rest]
    rw [e, handle_sip_response_decimal 401 _ (by intro c hc; simp at hc; subst hc; decide)]
    decide

theorem handle_sip_response_classifies_witness :
    handle_sip_response "OPTIONS sip:esp32 SIP/2.0".toList = Category.request_not_response ∧
    handle_sip_response ("SIP/2.0 ".toList ++ Nat.toDigits 10 404 ++ " Not Found".toList) =
      named_category 404 :=
  ⟨handle_sip_response_classifies.1 _ (by decide),
   handle_sip_response_classifies.2.2.1 404 _ (by decide)⟩

/-! ## Sequence counter (C3) -/

theorem wrap_int32_id (v : Int) (h1 : -2147483648 ≤ v) (h2 : v ≤ 2147483647) :
    wrap_int32 v = v := by
  unfold wrap_int32
  omega

theorem toDigits_length_le (b : Nat) (hb : 2 ≤ b) (n e : Nat) (h : n < b ^ e) (he : 0 < e) :
    (Nat.toDigits b n).length ≤ e :=
  Nat.toDigitsCore_length b hb (n + 1) n e h he

theorem fmt_d_length (v : Int) (h1 : -2147483648 ≤ v) (h2 : v ≤ 2147483647) :
    (fmt_d v).length ≤ 11 := by
  cases v with
  | ofNat n =>
    have : (Nat.toDigits 10 n).length ≤ 10 :=
      toDigits_length_le 10 (by decide) n 10 (by simp at h2; omega) (by decide)
    simp only [fmt_d]; omega
  | negSucc n =>
    have : (Nat.toDigits 10 (n + 1)).length ≤ 10 :=
      toDigits_length_le 10 (by decide) (n + 1) 10
        (by have := Int.negSucc_eq n; omega) (by decide)
    simp only [fmt_d, List.length_cons]; omega

theorem octet_length (x : Nat) : (fmt_d (Int.ofNat (x % 256))).length ≤ 3 := by
  have : x % 256 < 10 ^ 3 := by
    have := Nat.mod_lt x (show 0 < 256 by decide)
    omega
  exact toDigits_length_le 10 (by decide) _ 3 this (by decide)

theorem ip2str_length (addr : Nat) : (ip2str addr).length ≤ 15 := by
  have h1 := octet_length addr
  have h2 := octet_length (addr / 256)
  have h3 := octet_length (addr / 65536)
  have h4 := octet_length (addr / 16777216)
  have hdot : ".".toList.length = 1 := rfl
  simp only [ip2str, List.length_append, hdot]
  omega

theorem options_format_fits (ip : Nat) (g : Globals) (hg : g.fits) :
    (options_format SIP_SERVER SIP_PORT (ip2str ip) g.branch_id SIP_USER g.local_tag g.call_id
      g.cseq).length ≤ 511 := by
  obtain ⟨h1, h2, h3, h4, h5⟩ := hg
  have hip := ip2str_length ip
  have hseq := fmt_d_length g.cseq h4 h5
  have hport : (fmt_d SIP_PORT).length = 4 := by decide
  have hsrv : SIP_SERVER.length = 12 := by decide
  have husr : SIP_USER.length = 4 := by decide
  simp only [options_format, List.length_append, hport, hsrv, husr]
  simp
  omega

theorem register_format_fits (ip : Nat) (g : Globals) (hg : g.fits) :
    (register_format SIP_SERVER SIP_PORT (ip2str ip) g.branch_id SIP_USER g.local_tag g.call_id
      g.cseq).length ≤ 1023 := by
  obtain ⟨h1, h2, h3, h4, h5⟩ := hg
  have hip := ip2str_length ip
  have hseq := fmt_d_length g.cseq h4 h5
  have hport : (fmt_d SIP_PORT).length = 4 := by decide
  have hsrv : SIP_SERVER.length = 12 := by decide
  have husr : SIP_USER.length = 4 := by decide
  simp only [register_format, List.length_append, hport, hsrv, husr]
  simp
  omega

theorem options_format_cseq (server : CStr) (port : Int)
    (local_ip branch user tag callid : CStr) (seq : Int) :
    ("\r\n".toList ++ "CSeq: ".toList ++ fmt_d seq ++ " OPTIONS\r\n".toList) <:+:
      options_format server port local_ip branch user tag callid seq := by
  refine ⟨"OPTIONS sip:".toList ++ server ++ ":".toList ++ fmt_d port ++ " SIP/2.0\r\n".toList ++
    "Via: SIP/2.0/UDP ".toList ++ local_ip ++ ":5060;branch=".toList ++ branch ++
    ";rport\r\n".toList ++ "From: <sip:".toList ++ user ++ "@".toList ++ server ++ ":".toList ++
    fmt_d port ++ ">;tag=".toList ++ tag ++ "\r\n".toList ++ "To: <sip:".toList ++ server ++
    ":".toList ++ fmt_d port ++ ">\r\n".toList ++ "Call-ID: ".toList ++ callid,
    "Max-Forwards: 70\r\n".toList ++ "User-Agent: ESP32-S3-SIP-Client/1.0\r\n".toList ++
    "Accept: application/sdp, text/plain\r\n".toList ++ "Content-Length: 0\r\n".toList ++
    "\r\n".toList, ?_⟩
  simp only [options_format, List.append_assoc]

theorem register_format_cseq (server : CStr) (port : Int)
    (local_ip branch user tag callid : CStr) (seq : Int) :
    ("\r\n".toList ++ "CSeq: ".toList ++ fmt_d seq ++ " REGISTER\r\n".toList) <:+:
      register_format server port local_ip branch user tag callid seq := by
  refine ⟨"REGISTER sip:".toList ++ server ++ ":".toList ++ fmt_d port ++ " SIP/2.0\r\n".toList ++
    "Via: SIP/2.0/UDP ".toList ++ local_ip ++ ":5060;branch=".toList ++ branch ++
    ";rport\r\n".toList ++ "From: <sip:".toList ++ user ++ "@".toList ++ server ++ ":".toList ++
    fmt_d port ++ ">;tag=".toList ++ tag ++ "\r\n".toList ++ "To: <sip:".toList ++ user ++
    "@".toList ++ server ++ ":".toList ++ fmt_d port ++ ">\r\n".toList ++ "Call-ID: ".toList ++
    callid,
    "Contact: <sip:".toList ++ user ++ "@".toList ++ local_ip ++
    ":5060>;expires=300\r\n".toList ++ "Max-Forwards: 70\r\n".toList ++
    "User-Agent: ESP32-S3-SIP-Client/1.0\r\n".toList ++
    "Allow: INVITE,ACK,CANCEL,BYE,NOTIFY,REFER,MESSAGE,OPTIONS,INFO,SUBSCRIBE\r\n".toList ++
    "Expires: 300\r\n".toList ++ "Content-Length: 0\r\n".toList ++ "\r\n".toList, ?_⟩
  simp only [register_format, List.append_assoc]

theorem send_sip_options_built (sock : Int) (env : SendEnv) (g : Globals)
    (hh : env.host.isSome = true) :
    Event.sendto sock (options_msg SIP_SERVER SIP_PORT (ip2str env.ip) g.branch_id SIP_USER
        g.local_tag g.call_id g.cseq) env.sendto_ret ∈ (send_sip_options sock env g).2.1 ∧
    (send_sip_options sock env g).2.2 = { g with cseq := wrap_int32 (g.cseq + 1) } := by
  obtain ⟨a, ha⟩ := Option.isSome_iff_exists.mp hh
  unfold send_sip_options
  rw [ha]
  by_cases hs : env.sendto_ret < 0 <;> simp [hs]

theorem send_sip_register_built (sock : Int) (env : SendEnv) (g : Globals)
    (hh : env.host.isSome = true) :
    Event.sendto sock (register_msg SIP_SERVER SIP_PORT (ip2str env.ip) g.branch_id SIP_USER
        g.local_tag g.call_id g.cseq) env.sendto_ret ∈ (send_sip_register sock env g).2.1 ∧
    (send_sip_register sock env g).2.2 = { g with cseq := wrap_int32 (g.cseq + 1) } := by
  obtain ⟨a, ha⟩ := Option.isSome_iff_exists.mp hh
  unfold send_sip_register
  rw [ha]
  by_cases hs : env.sendto_ret < 0 <;> simp [hs]

theorem send_sip_options_unresolved (sock : Int) (env : SendEnv) (g : Globals)
    (hh : env.host.isSome = false) :
    (send_sip_options sock env g).1 = false ∧ (send_sip_options sock env g).2.2 = g ∧
    ∀ e ∈ (send_sip_options sock env g).2.1, e.is_sendto = false := by
  have ha : env.host = none := by simpa using hh
  unfold send_sip_options
  rw [ha]
  simp [Event.is_sendto]

theorem send_sip_register_unresolved (sock : Int) (env : SendEnv) (g : Globals)
    (hh : env.host.isSome = false) :
    (send_sip_register sock env g).1 = false ∧ (send_sip_register sock env g).2.2 = g ∧
    ∀ e ∈ (send_sip_register sock env g).2.1, e.is_sendto = false := by
  have ha : env.host = none := by simpa using hh
  unfold send_sip_register
  rw [ha]
  simp [Event.is_sendto]

theorem send_request_cseq (c : SendCall) (g : Globals) :
    (send_request c g).2.2 =
      if c.builds then { g with cseq := wrap_int32 (g.cseq + 1) } else g := by
  unfold send_request SendCall.builds
  cases hb : c.env.host.isSome
  · cases c.method
    · simpa using (send_sip_options_unresolved c.sock c.env g hb).2.1
    · simpa using (send_sip_register_unresolved c.sock c.env g hb).2.1
  · cases c.method
    · simpa using (send_sip_options_built c.sock c.env g hb).2
    · simpa using (send_sip_register_built c.sock c.env g hb).2

theorem cseq_numbers_none (calls : List SendCall) (g : Globals)
    (h : (calls.filter SendCall.builds).length = 0) : cseq_numbers calls g = [] := by
  induction calls generalizing g with
  | nil => rfl
  | cons c cs ih =>
    by_cases hb : c.builds = true
    · simp [List.filter_cons, hb] at h
    · simp only [List.filter_cons, hb, Bool.false_eq_true, if_false] at h
      simp only [cseq_numbers, hb, Bool.false_eq_true, if_false]
      exact ih _ h

theorem cseq_numbers_eq (calls : List SendCall) (g : Globals) (s : Nat)
    (hs : g.cseq = (s : Int))
    (hk : s + (calls.filter SendCall.builds).length ≤ 2147483648) :
    cseq_numbers calls g =
      (List.range' s (calls.filter SendCall.builds).length).map (fun n : Nat => (n : Int)) := by
  induction calls generalizing g s with
  | nil => rfl
  | cons c cs ih =>
    by_cases hb : c.builds = true
    · simp only [List.filter_cons, hb, if_true, List.length_cons] at hk ⊢
      simp only [cseq_numbers, hb, if_true, List.range'_succ, List.map_cons, hs,
        send_request_cseq]
      congr 1
      by_cases hz : (cs.filter SendCall.builds).length = 0
      · rw [cseq_numbers_none cs _ hz, hz]
        rfl
      · have hw : wrap_int32 ((s : Int) + 1) = ((s + 1 : Nat) : Int) := by
          rw [wrap_int32_id _ (by omega) (by omega)]
          push_cast
          rfl
        exact ih _ (s + 1) hw (by omega)
    · simp only [List.filter_cons, hb, Bool.false_eq_true, if_false] at hk ⊢
      simp only [cseq_numbers, hb, Bool.false_eq_true, if_false, send_request_cseq]
      exact ih g s hs hk

theorem after_calls_append (a b : List SendCall) (g : Globals) :
    after_calls (a ++ b) g = after_calls b (after_calls a g) := by
  induction a generalizing g with
  | nil => rfl
  | cons c cs ih => exact ih _

theorem cseq_numbers_append (a b : List SendCall) (g : Globals) :
    cseq_numbers (a ++ b) g = cseq_numbers a g ++ cseq_numbers b (after_calls a g) := by
  induction a generalizing g with
  | nil => rfl
  | cons c cs ih =>
    by_cases hb : c.builds = true
    · simp only [List.cons_append, cseq_numbers, hb, if_true, after_calls]
      exact congrArg _ (ih _)
    · simp only [List.cons_append, cseq_numbers, hb, Bool.false_eq_true, if_false, after_calls]
      exact ih _

theorem after_calls_replicate (k : Nat) (g : Globals) (h0 : -2147483648 ≤ g.cseq)
    (hk : g.cseq + k ≤ 2147483647) :
    after_calls (List.replicate k options_call) g = { g with cseq := g.cseq + k } := by
  induction k generalizing g with
  | zero => simp [after_calls]
  | succ n ih =>
    have hb : options_call.builds = true := rfl
    have hw : wrap_int32 (g.cseq + 1) = g.cseq + 1 :=
      wrap_int32_id _ (by omega) (by push_cast at hk; omega)
    simp only [List.replicate_succ, after_calls, send_request_cseq, hb, if_true, hw]
    rw [ih _ (by simp only; omega) (by simp only; push_cast at hk; omega)]
    simp only [Nat.cast_add, Nat.cast_one]
    congr 1
    omega

/-- C3 (amended): a call of `send_sip_options` or `send_sip_register` that builds a request (the
server name resolves), made while the globals hold what their C types can hold and the counter
is below `INT_MAX = 2147483647`, hands `sendto` the complete formatted text, whose CSeq line
carries the value `cseq` had before the call, and leaves the counter exactly 1 higher.  Hence
over any sequence of calls of either builder that starts from `cseq = 1` and builds at most
2147483647 requests, the CSeq numbers are 1, 2, 3, ... in order: strictly increasing, never
decreasing, never repeating. -/
theorem cseq_increments_below_int_max :
    (∀ (sock : Int) (env : SendEnv) (g : Globals),
      env.host.isSome = true → g.fits → g.cseq < 2147483647 →
      (Event.sendto sock (options_format SIP_SERVER SIP_PORT (ip2str env.ip) g.branch_id SIP_USER
          g.local_tag g.call_id g.cseq) env.sendto_ret ∈ (send_sip_options sock env g).2.1 ∧
        ("\r\n".toList ++ "CSeq: ".toList ++ fmt_d g.cseq ++ " OPTIONS\r\n".toList) <:+:
          options_format SIP_SERVER SIP_PORT (ip2str env.ip) g.branch_id SIP_USER
            g.local_tag g.call_id g.cseq ∧
        (send_sip_options sock env g).2.2.cseq = g.cseq + 1) ∧
      (Event.sendto sock (register_format SIP_SERVER SIP_PORT (ip2str env.ip) g.branch_id SIP_USER
          g.local_tag g.call_id g.cseq) env.sendto_ret ∈ (send_sip_register sock env g).2.1 ∧
        ("\r\n".toList ++ "CSeq: ".toList ++ fmt_d g.cseq ++ " REGISTER\r\n".toList) <:+:
          register_format SIP_SERVER SIP_PORT (ip2str env.ip) g.branch_id SIP_USER
            g.local_tag g.call_id g.cseq ∧
        (send_sip_register sock env g).2.2.cseq = g.cseq + 1)) ∧
    (∀ (calls : List SendCall) (g : Globals),
      g.cseq = 1 → (calls.filter SendCall.builds).length ≤ 2147483647 →
      cseq_numbers calls g =
        (List.range' 1 (calls.filter SendCall.builds).length).map (fun n : Nat => (n : Int)) ∧
      List.Pairwise (fun a b : Int => a < b) (cseq_numbers calls g)) := by
  constructor
  · intro sock env g hh hg hlt
    have hw : wrap_int32 (g.cseq + 1) = g.cseq + 1 :=
      wrap_int32_id _ (by have := hg.2.2.2.1; omega) (by omega)
    have ho := send_sip_options_built sock env g hh
    have hr := send_sip_register_built sock env g hh
    rw [options_msg, snprintf_fits _ _ (options_format_fits env.ip g hg)] at ho
    rw [register_msg, snprintf_fits _ _ (register_format_fits env.ip g hg)] at hr
    refine ⟨⟨ho.1, options_format_cseq .., ?_⟩, ⟨hr.1, register_format_cseq .., ?_⟩⟩
    · rw [ho.2]; exact hw
    · rw [hr.2]; exact hw
  · intro calls g hg hk
    have he := cseq_numbers_eq calls g 1 (by simpa using hg) (by omega)
    refine ⟨he, ?_⟩
    rw [he]
    exact List.Pairwise.map _ (fun a b hab => by exact_mod_cast hab)
      (List.pairwise_lt_range' 1 _)

theorem cseq_increments_below_int_max_witness :
    (send_sip_options 54 options_call.env Globals.init).2.2.cseq = Globals.init.cseq + 1 ∧
    List.Pairwise (fun a b : Int => a < b)
      (cseq_numbers [options_call, options_call] Globals.init) :=
  ⟨((cseq_increments_below_int_max.1 54 options_call.env Globals.init (by decide)
      (by decide) (by decide)).1).2.2,
   (cseq_increments_below_int_max.2 [options_call, options_call] Globals.init (by decide)
      (by decide)).2⟩

/-- C3 fails as stated: starting from `cseq = 1`, after 2147483646 built requests the counter is
`INT_MAX = 2147483647`; the next request carries 2147483647 and leaves the counter at
-2147483648, which is not 1 higher, so the CSeq numbers of 2147483648 requests are not
strictly increasing. -/
theorem cseq_wraps_at_int_max :
    (after_calls (List.replicate 2147483646 options_call) Globals.init).cseq = 2147483647 ∧
    (send_request options_call
      (after_calls (List.replicate 2147483646 options_call) Globals.init)).2.2.cseq =
        -2147483648 ∧
    ¬ List.Pairwise (fun a b : Int => a < b)
      (cseq_numbers (List.replicate 2147483648 options_call) Globals.init) := by
  have ha : after_calls (List.replicate 2147483646 options_call) Globals.init =
      { Globals.init with cseq := 2147483647 } := by
    rw [after_calls_replicate 2147483646 Globals.init (by decide) (by decide)]
    rfl
  have hb : options_call.builds = true := rfl
  have hw : wrap_int32 (2147483647 + 1) = -2147483648 := by decide
  refine ⟨by rw [ha], ?_, ?_⟩
  · rw [ha, send_request_cseq]
    simp only [hb, if_true]
    exact hw
  · intro hp
    have e : List.replicate 2147483648 options_call =
        List.replicate 2147483646 options_call ++ [options_call, options_call] := by
      rw [show (2147483648 : Nat) = 2147483646 + 2 from rfl, List.replicate_add]
      rfl
    rw [e, cseq_numbers_append, ha] at hp
    have h2 := (List.pairwise_append.mp hp).2.1
    simp only [cseq_numbers, hb, if_true, send_request_cseq, hw, List.pairwise_cons] at h2
    have := h2.1 (-2147483648) (by simp)
    omega

/-! ## Identifier generator (C6) -/

theorem fmt_08x_length (r : Nat) (h : r < 4294967296) : (fmt_08x r).length = 8 := by
  have hl : (Nat.toDigits 16 r).length ≤ 8 :=
    toDigits_length_le 16 (by decide) r 8 (by simpa using h) (by decide)
  simp only [fmt_08x, List.length_append, List.length_replicate]
  omega

theorem fmt_08x_hex (r : Nat) : ∀ c ∈ fmt_08x r, c ∈ "0123456789abcdef".toList := by
  intro c hc
  rcases List.mem_append.mp hc with h | h
  · rw [(List.mem_replicate.mp h).2]; decide
  · rcases toDigitsCore_mem 16 (by decide) _ _ _ c h with h | ⟨d, hd, rfl⟩
    · simp at h
    · exact digitChar_hex d hd

theorem hex_digit_value_digitChar (d : Nat) (hd : d < 16) :
    hex_digit_value (Nat.digitChar d) = d := by
  interval_cases d <;> decide

theorem hex_value_snoc (s : CStr) (c : Char) :
    hex_value (s ++ [c]) = hex_value s * 16 + hex_digit_value c := by
  simp [hex_value, List.foldl_append]

theorem hex_value_toDigitsCore (fuel n : Nat) (h : n < fuel) :
    hex_value (Nat.toDigitsCore 16 fuel n []) = n := by
  induction fuel generalizing n with
  | zero => omega
  | succ k ih =>
    have hv := hex_digit_value_digitChar (n % 16) (Nat.mod_lt _ (by decide))
    unfold Nat.toDigitsCore
    simp only
    split
    · have e := hex_value_snoc [] (Nat.digitChar (n % 16))
      rw [List.nil_append] at e
      rw [e, hv]
      simp only [hex_value, List.foldl_nil]
      omega
    · rw [toDigitsCore_acc, hex_value_snoc, ih (n / 16) (by omega), hv]
      omega

theorem hex_value_zeros (k : Nat) (s : CStr) :
    hex_value (List.replicate k '0' ++ s) = hex_value s := by
  have hz : hex_digit_value '0' = 0 := by decide
  have key : ∀ k : Nat, List.foldl (fun acc c => acc * 16 + hex_digit_value c) 0
      (List.replicate k '0') = 0 := by
    intro k
    induction k with
    | zero => rfl
    | succ n ih => rw [List.replicate_succ, List.foldl_cons, hz]; exact ih
  unfold hex_value
  rw [List.foldl_append, key]

theorem hex_value_fmt_08x (r : Nat) : hex_value (fmt_08x r) = r := by
  unfold fmt_08x
  rw [hex_value_zeros]
  exact hex_value_toDigitsCore _ _ (Nat.lt_succ_self r)

/-- C6: for three 32-bit draws `random1`, `random2`, `random3`, `generate_random_ids` sets the
call identifier to hex(random1) hex(random2) `@esp32s3`, the local tag to hex(random3) and the
branch identifier to the cookie `z9hG4bK` followed by hex(random1), where hex is the `%08x`
conversion: 8 characters, each a lower-case hexadecimal digit, that denote the value drawn.  The branch identifier without
its 7-character cookie equals the first 8 characters of the call identifier; the three strings
have lengths 24, 8 and 15, so none is cut by its buffer of 64, 32 and 64 bytes; the sequence
counter is left alone. -/
theorem generate_random_ids_format (random1 random2 random3 : Nat) (g : Globals)
    (h1 : random1 < 4294967296) (h2 : random2 < 4294967296) (h3 : random3 < 4294967296) :
    (generate_random_ids random1 random2 random3 g).call_id =
      fmt_08x random1 ++ fmt_08x random2 ++ "@esp32s3".toList ∧
    (generate_random_ids random1 random2 random3 g).local_tag = fmt_08x random3 ∧
    (generate_random_ids random1 random2 random3 g).branch_id =
      "z9hG4bK".toList ++ fmt_08x random1 ∧
    ((generate_random_ids random1 random2 random3 g).branch_id.drop 7 =
      (generate_random_ids random1 random2 random3 g).call_id.take 8) ∧
    (generate_random_ids random1 random2 random3 g).call_id.length = 24 ∧
    (generate_random_ids random1 random2 random3 g).local_tag.length = 8 ∧
    (generate_random_ids random1 random2 random3 g).branch_id.length = 15 ∧
    (generate_random_ids random1 random2 random3 g).cseq = g.cseq ∧
    (fmt_08x random1).length = 8 ∧ (fmt_08x random2).length = 8 ∧
    (fmt_08x random3).length = 8 ∧
    (∀ c ∈ fmt_08x random1 ++ fmt_08x random2 ++ fmt_08x random3,
      c ∈ "0123456789abcdef".toList) ∧
    hex_value (fmt_08x random1) = random1 ∧ hex_value (fmt_08x random2) = random2 ∧
    hex_value (fmt_08x random3) = random3 := by
  have l1 := fmt_08x_length random1 h1
  have l2 := fmt_08x_length random2 h2
  have l3 := fmt_08x_length random3 h3
  have s8 : "@esp32s3".toList.length = 8 := rfl
  have s7 : "z9hG4bK".toList.length = 7 := rfl
  have e1 : snprintf 64 (fmt_08x random1 ++ fmt_08x random2 ++ "@esp32s3".toList) =
      fmt_08x random1 ++ fmt_08x random2 ++ "@esp32s3".toList :=
    snprintf_fits _ _ (by simp only [List.length_append, l1, l2, s8]; decide)
  have e2 : snprintf 32 (fmt_08x random3) = fmt_08x random3 :=
    snprintf_fits _ _ (by rw [l3]; decide)
  have e3 : snprintf 64 ("z9hG4bK".toList ++ fmt_08x random1) =
      "z9hG4bK".toList ++ fmt_08x random1 :=
    snprintf_fits _ _ (by simp only [List.length_append, l1, s7]; decide)
  unfold generate_random_ids
  rw [e1, e2, e3]
  refine ⟨rfl, rfl, rfl, ?_, ?_, l3, ?_, rfl, l1, l2, l3, ?_, hex_value_fmt_08x _,
    hex_value_fmt_08x _, hex_value_fmt_08x _⟩
  · rw [List.drop_left' s7, List.append_assoc, List.take_left' l1]
  · simp only [List.length_append, l1, l2, s8]
  · simp only [List.length_append, l1, s7]
  · intro c hc
    rcases List.mem_append.mp hc with h | h
    · rcases List.mem_append.mp h with h | h
      · exact fmt_08x_hex _ c h
      · exact fmt_08x_hex _ c h
    · exact fmt_08x_hex _ c h

theorem generate_random_ids_format_witness :
    (generate_random_ids 48879 305419896 12648430 Globals.init).call_id =
      fmt_08x 48879 ++ fmt_08x 305419896 ++ "@esp32s3".toList ∧
    (generate_random_ids 48879 305419896 12648430 Globals.init).branch_id.length = 15 :=
  ⟨(generate_random_ids_format 48879 305419896 12648430 Globals.init
      (by decide) (by decide) (by decide)).1,
   (generate_random_ids_format 48879 305419896 12648430 Globals.init
      (by decide) (by decide) (by decide)).2.2.2.2.2.2.1⟩

/-! ## Probe cycle -/

theorem events_before_append (p : Event → Bool) (a b : List Event)
    (h : ∀ e ∈ a, p e = false) : events_before p (a ++ b) = a ++ events_before p b := by
  induction a with
  | nil => rfl
  | cons x xs ih =>
    have hx : p x = false := h x (List.mem_cons_self _ _)
    have ht := ih (fun e he => h e (List.mem_cons_of_mem _ he))
    simp only [events_before] at ht ⊢
    simp [List.takeWhile_cons, hx, ht]

theorem events_after_append (p : Event → Bool) (a b : List Event)
    (h : ∀ e ∈ a, p e = false) : events_after p (a ++ b) = events_after p b := by
  induction a with
  | nil => rfl
  | cons x xs ih =>
    have hx : p x = false := h x (List.mem_cons_self _ _)
    have ht := ih (fun e he => h e (List.mem_cons_of_mem _ he))
    simp only [events_after] at ht ⊢
    simp [List.dropWhile_cons, hx, ht]

theorem events_before_hit (p : Event → Bool) (x : Event) (l : List Event) (h : p x = true) :
    events_before p (x :: l) = [] := by
  simp [events_before, List.takeWhile_cons, h]

theorem events_after_hit (p : Event → Bool) (x : Event) (l : List Event) (h : p x = true) :
    events_after p (x :: l) = l := by
  simp [events_after, List.dropWhile_cons, h]

theorem filter_none (p : Event → Bool) (a : List Event) (h : ∀ e ∈ a, p e = false) :
    a.filter p = [] := by
  rw [List.filter_eq_nil_iff]
  intro e he
  simp [h e he]

theorem send_sip_options_ret (sock : Int) (env : SendEnv) (g : Globals) :
    (send_sip_options sock env g).1 = (env.host.isSome && decide (0 ≤ env.sendto_ret)) := by
  unfold send_sip_options
  cases env.host with
  | none => rfl
  | some a =>
    by_cases hs : env.sendto_ret < 0
    · simp [hs]
    · simp [hs]; omega

theorem send_sip_register_ret (sock : Int) (env : SendEnv) (g : Globals) :
    (send_sip_register sock env g).1 = (env.host.isSome && decide (0 ≤ env.sendto_ret)) := by
  unfold send_sip_register
  cases env.host with
  | none => rfl
  | some a =>
    by_cases hs : env.sendto_ret < 0
    · simp [hs]
    · simp [hs]; omega

theorem send_sip_options_events (sock : Int) (env : SendEnv) (g : Globals) :
    (∀ e ∈ (send_sip_options sock env g).2.1,
      e.in_body sock = true ∧ e.is_call_register = false ∧ e.is_recvfrom = false ∧
        e.is_report = false) ∧
    Event.ret_options (send_sip_options sock env g).1 ∈ (send_sip_options sock env g).2.1 := by
  unfold send_sip_options
  cases env.host with
  | none => simp [Event.in_body, Event.is_socket, Event.is_close, Event.is_delay, Event.sock,
      Event.is_call_register, Event.is_recvfrom, Event.is_report]
  | some a =>
    by_cases hs : env.sendto_ret < 0 <;>
    simp [hs, Event.in_body, Event.is_socket, Event.is_close, Event.is_delay, Event.sock,
      Event.is_call_register, Event.is_recvfrom, Event.is_report]

theorem send_sip_register_events (sock : Int) (env : SendEnv) (g : Globals) :
    ∃ tl, (send_sip_register sock env g).2.1 = Event.call_register sock :: tl ∧
      ∀ e ∈ tl, e.in_body sock = true ∧ e.is_call_register = false ∧
        e.is_call_options = false ∧ e.is_ret_options = false ∧ e.is_report = false := by
  unfold send_sip_register
  cases env.host with
  | none => exact ⟨_, rfl, by simp [Event.in_body, Event.is_socket, Event.is_close,
      Event.is_delay, Event.sock, Event.is_call_register, Event.is_call_options,
      Event.is_ret_options, Event.is_report]⟩
  | some a =>
    by_cases hs : env.sendto_ret < 0
    · simp only [hs, if_true]
      exact ⟨_, rfl, by simp [Event.in_body, Event.is_socket, Event.is_close,
        Event.is_delay, Event.sock, Event.is_call_register, Event.is_call_options,
        Event.is_ret_options, Event.is_report]⟩
    · simp only [hs, if_false]
      exact ⟨_, rfl, by simp [Event.in_body, Event.is_socket, Event.is_close,
        Event.is_delay, Event.sock, Event.is_call_register, Event.is_call_options,
        Event.is_ret_options, Event.is_report]⟩

theorem await_reply_events (sock : Int) (r : RecvEnv) (m : LogMsg)
    (hm : (Event.log m).is_report = false) :
    (∀ e ∈ (await_reply sock r m).2,
      e.in_body sock = true ∧ e.is_call_register = false ∧
        e.is_call_options = false ∧ e.is_ret_options = false ∧ e.is_report = false) ∧
    Event.recvfrom sock r.len ∈ (await_reply sock r m).2 ∧
    (await_reply sock r m).1 = decide (0 < r.len) := by
  unfold await_reply
  have h1 : (Event.setsockopt sock SIP_TIMEOUT).is_report = false := rfl
  have h2 : (Event.recvfrom sock r.len).is_report = false := rfl
  have h3 : ∀ c, (Event.log (LogMsg.response c)).is_report = false := fun _ => rfl
  by_cases h : r.len > 0 <;>
  simp [h, hm, h1, h2, h3, Event.in_body, Event.is_socket, Event.is_close, Event.is_delay,
    Event.sock, Event.is_call_register, Event.is_call_options, Event.is_ret_options]

theorem options_test_facts (sock : Int) (env : CycleEnv) (g : Globals) :
    (∀ e ∈ (options_test sock env g).2.1,
      e.in_body sock = true ∧ e.is_call_register = false ∧ e.is_report = false) ∧
    Event.ret_options (send_sip_options sock env.options g).1 ∈ (options_test sock env g).2.1 ∧
    ((send_sip_options sock env.options g).1 = true →
      Event.recvfrom sock env.options_recv.len ∈ (options_test sock env g).2.1) ∧
    (options_test sock env g).1 =
      ((send_sip_options sock env.options g).1 && decide (0 < env.options_recv.len)) ∧
    (options_test sock env g).2.2 = (send_sip_options sock env.options g).2.2 := by
  have ho := send_sip_options_events sock env.options g
  have ha := await_reply_events sock env.options_recv LogMsg.no_options_response rfl
  unfold options_test
  cases hok : (send_sip_options sock env.options g).1
  · simp only [Bool.false_eq_true, if_false, Bool.false_and, and_true, false_implies, true_and]
    rw [hok] at ho
    refine ⟨?_, List.mem_append_left _ ho.2⟩
    intro e he
    rcases List.mem_append.mp he with h | h
    · exact ⟨(ho.1 e h).1, (ho.1 e h).2.1, (ho.1 e h).2.2.2⟩
    · rw [List.mem_singleton.mp h]
      simp [Event.in_body, Event.is_socket, Event.is_close, Event.is_delay, Event.sock,
        Event.is_call_register, Event.is_report]
  · simp only [if_true, Bool.true_and, and_true, true_implies]
    rw [hok] at ho
    refine ⟨?_, List.mem_append_left _ ho.2, List.mem_append_right _ ha.2.1, ha.2.2⟩
    intro e he
    rcases List.mem_append.mp he with h | h
    · exact ⟨(ho.1 e h).1, (ho.1 e h).2.1, (ho.1 e h).2.2.2⟩
    · exact ⟨(ha.1 e h).1, (ha.1 e h).2.1, (ha.1 e h).2.2.2.2⟩

theorem register_test_facts (sock : Int) (env : CycleEnv) (g : Globals) :
    (∃ tl, (register_test sock env g).2.1 =
        Event.random_ids :: Event.call_register sock :: tl ∧
      ∀ e ∈ tl, e.in_body sock = true ∧ e.is_call_register = false ∧
        e.is_call_options = false ∧ e.is_ret_options = false ∧ e.is_report = false) ∧
    (register_test sock env g).1 =
      ((send_sip_register sock env.register (generate_random_ids env.r4 env.r5 env.r6 g)).1 &&
        decide (0 < env.register_recv.len)) := by
  obtain ⟨tl, htl, hall⟩ :=
    send_sip_register_events sock env.register (generate_random_ids env.r4 env.r5 env.r6 g)
  have ha := await_reply_events sock env.register_recv LogMsg.no_register_response rfl
  unfold register_test
  cases hok : (send_sip_register sock env.register
      (generate_random_ids env.r4 env.r5 env.r6 g)).1
  · simp only [Bool.false_eq_true, if_false, Bool.false_and, and_true, htl]
    exact ⟨tl, rfl, hall⟩
  · simp only [if_true, Bool.true_and, htl]
    refine ⟨⟨tl ++ (await_reply sock env.register_recv LogMsg.no_register_response).2,
      by simp, ?_⟩, ha.2.2⟩
    intro e he
    rcases List.mem_append.mp he with h | h
    · exact hall e h
    · exact ha.1 e h

theorem loop_trace (env : CycleEnv) (s : TaskState)
    (hw : env.wifi_connected = true) (hs : 0 ≤ env.socket_ret) :
    (loop_iteration env s).1 =
      [Event.log (LogMsg.test_cycle (wrap_int32 (s.test_cycle + 1))),
        Event.socket env.socket_ret, Event.setsockopt env.socket_ret 5,
        Event.log LogMsg.socket_created, Event.random_ids] ++
      ((both_tests env.socket_ret env (generate_random_ids env.r1 env.r2 env.r3 s.g)).2.1 ++
        (Event.close env.socket_ret ::
          report (both_tests env.socket_ret env
            (generate_random_ids env.r1 env.r2 env.r3 s.g)).1)) := by
  have hn : ¬ env.socket_ret < 0 := not_lt.mpr hs
  simp [loop_iteration, create_udp_socket, hw, hn]

theorem both_tests_cases (sock : Int) (env : CycleEnv) (g : Globals) :
    ((options_test sock env g).1 = true ∧
      (both_tests sock env g).2.1 = (options_test sock env g).2.1 ∧
      (both_tests sock env g).1 = true) ∨
    ((options_test sock env g).1 = false ∧
      (both_tests sock env g).1 = (register_test sock env (options_test sock env g).2.2).1 ∧
      ∃ tl, (both_tests sock env g).2.1 =
          (options_test sock env g).2.1 ++ Event.random_ids :: Event.call_register sock :: tl ∧
        ∀ e ∈ tl, e.in_body sock = true ∧ e.is_call_register = false ∧
          e.is_call_options = false ∧ e.is_ret_options = false ∧ e.is_report = false) := by
  unfold both_tests
  cases h : (options_test sock env g).1
  · right
    obtain ⟨⟨tl, htl, hall⟩, _⟩ := register_test_facts sock env (options_test sock env g).2.2
    simp only [Bool.false_eq_true, if_false, true_and]
    exact ⟨tl, by rw [htl], hall⟩
  · left
    simp [h]

theorem report_events (r : Bool) :
    ∀ e ∈ report r, e.is_call_register = false ∧ e.is_call_options = false ∧
      e.is_ret_options = false ∧ e.is_sendto = false ∧ e.is_recvfrom = false ∧
      e.is_socket = false ∧ e.is_close = false ∧ e.sock = none := by
  cases r <;>
  simp [report, Event.is_call_register, Event.is_call_options, Event.is_ret_options,
    Event.is_sendto, Event.is_recvfrom, Event.is_socket, Event.is_close, Event.sock]

theorem events_no_hit (p : Event → Bool) (a : List Event) (h : ∀ e ∈ a, p e = false) :
    events_before p a = a ∧ events_after p a = [] := by
  have h1 := events_before_append p a [] h
  have h2 := events_after_append p a [] h
  simp only [List.append_nil] at h1 h2
  exact ⟨by rw [h1]; simp [events_before], by rw [h2]; simp [events_after]⟩

theorem reply_200_ok (rest : CStr) :
    handle_sip_response ("SIP/2.0 200 OK".toList ++ rest) = Category.success := by
  have e : "SIP/2.0 200 OK".toList ++ rest =
      "SIP/2.0 ".toList ++ Nat.toDigits 10 200 ++ (" OK".toList ++ rest) := by
    have e1 : "SIP/2.0 200 OK".toList =
        "SIP/2.0 ".toList ++ Nat.toDigits 10 200 ++ " OK".toList := by decide
    rw [e1, List.append_assoc _ _ rest]
  rw [e, handle_sip_response_decimal 200 _ (by intro c hc; simp at hc; subst hc; decide)]
  decide

theorem reply_401_unauthorized (rest : CStr) :
    handle_sip_response ("SIP/2.0 401 Unauthorized".toList ++ rest) =
      Category.auth_required := by
  have e : "SIP/2.0 401 Unauthorized".toList ++ rest =
      "SIP/2.0 ".toList ++ Nat.toDigits 10 401 ++ (" Unauthorized".toList ++ rest) := by
    have e1 : "SIP/2.0 401 Unauthorized".toList =
        "SIP/2.0 ".toList ++ Nat.toDigits 10 401 ++ " Unauthorized".toList := by decide
    rw [e1, List.append_assoc _ _ rest]
  rw [e, handle_sip_response_decimal 401 _ (by intro c hc; simp at hc; subst hc; decide)]
  decide

/-- C4: in every probe cycle whose socket was created, `send_sip_register` is invoked exactly
when the OPTIONS attempt produced no datagram (`send_sip_options` returned false, or `recvfrom`
returned no bytes), then once and on the cycle's socket; the return of `send_sip_options`, and
the return of the OPTIONS `recvfrom` when the send succeeded, precede that invocation, and no
call or return of `send_sip_options` follows it.  In particular, when OPTIONS is sent and a
reply beginning `SIP/2.0 200 OK` arrives, the reply is logged as success, the cycle reports
success and not failure, and `send_sip_register` is not invoked. -/
theorem register_iff_options_without_datagram (env : CycleEnv) (s : TaskState)
    (hw : env.wifi_connected = true) (hs : 0 ≤ env.socket_ret) :
    ((loop_iteration env s).1.filter Event.is_call_register =
      if (send_sip_options env.socket_ret env.options
            (generate_random_ids env.r1 env.r2 env.r3 s.g)).1 = false ∨
          env.options_recv.len ≤ 0
      then [Event.call_register env.socket_ret] else []) ∧
    Event.ret_options (send_sip_options env.socket_ret env.options
        (generate_random_ids env.r1 env.r2 env.r3 s.g)).1 ∈
      events_before Event.is_call_register (loop_iteration env s).1 ∧
    ((send_sip_options env.socket_ret env.options
        (generate_random_ids env.r1 env.r2 env.r3 s.g)).1 = true →
      Event.recvfrom env.socket_ret env.options_recv.len ∈
        events_before Event.is_call_register (loop_iteration env s).1) ∧
    (∀ e ∈ events_after Event.is_call_register (loop_iteration env s).1,
      e.is_call_options = false ∧ e.is_ret_options = false) ∧
    (∀ rest : CStr,
      (send_sip_options env.socket_ret env.options
        (generate_random_ids env.r1 env.r2 env.r3 s.g)).1 = true →
      0 < env.options_recv.len →
      received env.options_recv = "SIP/2.0 200 OK".toList ++ rest →
      Event.log (LogMsg.response Category.success) ∈ (loop_iteration env s).1 ∧
      Event.log LogMsg.working_correctly ∈ (loop_iteration env s).1 ∧
      Event.log LogMsg.no_response_from_server ∉ (loop_iteration env s).1 ∧
      ∀ e ∈ (loop_iteration env s).1, e.is_call_register = false) := by
  rw [loop_trace env s hw hs]
  generalize hg : generate_random_ids env.r1 env.r2 env.r3 s.g = g1
  obtain ⟨hT, hret, hrecv, hres, _⟩ := options_test_facts env.socket_ret env g1
  have hH : ∀ e ∈ [Event.log (LogMsg.test_cycle (wrap_int32 (s.test_cycle + 1))),
      Event.socket env.socket_ret, Event.setsockopt env.socket_ret 5,
      Event.log LogMsg.socket_created, Event.random_ids], e.is_call_register = false := by
    simp [Event.is_call_register]
  rcases both_tests_cases env.socket_ret env g1 with ⟨h1, hB, hB1⟩ | ⟨h1, hB1, tl, hB, htl⟩
  · -- a datagram answered OPTIONS
    rw [hB, hB1]
    rw [h1] at hres
    have hok : (send_sip_options env.socket_ret env.options g1).1 = true := by
      cases h : (send_sip_options env.socket_ret env.options g1).1
      · rw [h] at hres; simp at hres
      · rfl
    have hlen : 0 < env.options_recv.len := by
      rw [hok] at hres; simpa using hres.symm
    have hall : ∀ e ∈ [Event.log (LogMsg.test_cycle (wrap_int32 (s.test_cycle + 1))),
        Event.socket env.socket_ret, Event.setsockopt env.socket_ret 5,
        Event.log LogMsg.socket_created, Event.random_ids] ++
        ((options_test env.socket_ret env g1).2.1 ++
          (Event.close env.socket_ret :: report true)), e.is_call_register = false := by
      intro e he
      rcases List.mem_append.mp he with h | h
      · exact hH e h
      · rcases List.mem_append.mp h with h | h
        · exact (hT e h).2.1
        · rcases List.mem_cons.mp h with h | h
          · rw [h]; rfl
          · exact (report_events true e h).1
    obtain ⟨hb, ha⟩ := events_no_hit Event.is_call_register _ hall
    rw [hb, ha, filter_none _ _ hall]
    refine ⟨?_, ?_, ?_, ?_, ?_⟩
    · rw [if_neg]; rw [hok]; simp; omega
    · exact List.mem_append_right _ (List.mem_append_left _ hret)
    · intro h; exact List.mem_append_right _ (List.mem_append_left _ (hrecv h))
    · intro e he; simp at he
    · intro rest _ _ hrx
      refine ⟨?_, ?_, ?_, hall⟩
      · apply List.mem_append_right
        apply List.mem_append_left
        have : (options_test env.socket_ret env g1).2.1 =
            (send_sip_options env.socket_ret env.options g1).2.1 ++
              (await_reply env.socket_ret env.options_recv LogMsg.no_options_response).2 := by
          unfold options_test; rw [if_pos hok]
        rw [this]
        apply List.mem_append_right
        unfold await_reply
        rw [if_pos hlen, hrx, reply_200_ok]
        simp
      · simp [report]
      · intro hmem
        rcases List.mem_append.mp hmem with h | h
        · simp at h
        · rcases List.mem_append.mp h with h | h
          · have := (hT _ h).2.2
            simp [Event.is_report] at this
          · simp [report] at h
  · -- no datagram answered OPTIONS
    rw [hB, hB1]
    rw [h1] at hres
    have hcond : (send_sip_options env.socket_ret env.options g1).1 = false ∨
        env.options_recv.len ≤ 0 := by
      cases h : (send_sip_options env.socket_ret env.options g1).1
      · exact Or.inl rfl
      · rw [h] at hres
        right
        have : ¬ 0 < env.options_recv.len := by simpa using hres.symm
        omega
    have etr : [Event.log (LogMsg.test_cycle (wrap_int32 (s.test_cycle + 1))),
        Event.socket env.socket_ret, Event.setsockopt env.socket_ret 5,
        Event.log LogMsg.socket_created, Event.random_ids] ++
        (((options_test env.socket_ret env g1).2.1 ++
          Event.random_ids :: Event.call_register env.socket_ret :: tl) ++
          (Event.close env.socket_ret ::
            report (register_test env.socket_ret env
              (options_test env.socket_ret env g1).2.2).1)) =
        ([Event.log (LogMsg.test_cycle (wrap_int32 (s.test_cycle + 1))),
          Event.socket env.socket_ret, Event.setsockopt env.socket_ret 5,
          Event.log LogMsg.socket_created, Event.random_ids] ++
          (options_test env.socket_ret env g1).2.1 ++ [Event.random_ids]) ++
        (Event.call_register env.socket_ret :: (tl ++ (Event.close env.socket_ret ::
            report (register_test env.socket_ret env
              (options_test env.socket_ret env g1).2.2).1))) := by
      simp only [List.append_assoc, List.cons_append, List.nil_append]
    rw [etr]
    have hP : ∀ e ∈ [Event.log (LogMsg.test_cycle (wrap_int32 (s.test_cycle + 1))),
          Event.socket env.socket_ret, Event.setsockopt env.socket_ret 5,
          Event.log LogMsg.socket_created, Event.random_ids] ++
          (options_test env.socket_ret env g1).2.1 ++ [Event.random_ids],
        e.is_call_register = false := by
      intro e he
      rcases List.mem_append.mp he with h | h
      · rcases List.mem_append.mp h with h | h
        · exact hH e h
        · exact (hT e h).2.1
      · rw [List.mem_singleton.mp h]; rfl
    have hQ : ∀ e ∈ tl ++ (Event.close env.socket_ret ::
        report (register_test env.socket_ret env (options_test env.socket_ret env g1).2.2).1),
        e.is_call_register = false ∧ e.is_call_options = false ∧ e.is_ret_options = false := by
      intro e he
      rcases List.mem_append.mp he with h | h
      · exact ⟨(htl e h).2.1, (htl e h).2.2.1, (htl e h).2.2.2.1⟩
      · rcases List.mem_cons.mp h with h | h
        · rw [h]; exact ⟨rfl, rfl, rfl⟩
        · exact ⟨(report_events _ e h).1, (report_events _ e h).2.1, (report_events _ e h).2.2.1⟩
    rw [events_before_append _ _ _ hP, events_after_append _ _ _ hP,
      events_before_hit _ _ _ rfl, events_after_hit _ _ _ rfl, List.append_nil,
      List.filter_append, filter_none _ _ hP, List.nil_append,
      List.filter_cons_of_pos rfl, filter_none _ _ (fun e he => (hQ e he).1)]
    refine ⟨?_, ?_, ?_, ?_, ?_⟩
    · rw [if_pos hcond]
    · exact List.mem_append_left _ (List.mem_append_right _ hret)
    · intro h; exact List.mem_append_left _ (List.mem_append_right _ (hrecv h))
    · intro e he; exact ⟨(hQ e he).2.1, (hQ e he).2.2⟩
    · intro rest hok hlen _
      exfalso
      rcases hcond with h | h
      · rw [hok] at h; exact Bool.noConfusion h
      · omega

theorem register_iff_options_without_datagram_witness :
    ((loop_iteration scenario_b TaskState.init).1.filter Event.is_call_register =
      if (send_sip_options scenario_b.socket_ret scenario_b.options
            (generate_random_ids scenario_b.r1 scenario_b.r2 scenario_b.r3
              TaskState.init.g)).1 = false ∨
          scenario_b.options_recv.len ≤ 0
      then [Event.call_register scenario_b.socket_ret] else []) ∧
    (Event.log (LogMsg.response Category.success) ∈ (loop_iteration scenario_a TaskState.init).1 ∧
      Event.log LogMsg.working_correctly ∈ (loop_iteration scenario_a TaskState.init).1 ∧
      Event.log LogMsg.no_response_from_server ∉ (loop_iteration scenario_a TaskState.init).1 ∧
      ∀ e ∈ (loop_iteration scenario_a TaskState.init).1, e.is_call_register = false) :=
  ⟨(register_iff_options_without_datagram scenario_b TaskState.init (by decide) (by decide)).1,
   (register_iff_options_without_datagram scenario_a TaskState.init (by decide)
      (by decide)).2.2.2.2 "\r\n".toList (by decide) (by decide) (by decide)⟩

/-! ## A 401 reply to REGISTER (C5) -/

theorem both_tests_no_datagram (sock : Int) (env : CycleEnv) (g : Globals)
    (h : (options_test sock env g).1 = false) :
    (both_tests sock env g).1 = (register_test sock env (options_test sock env g).2.2).1 ∧
    (both_tests sock env g).2.1 =
      (options_test sock env g).2.1 ++
        (register_test sock env (options_test sock env g).2.2).2.1 ∧
    (both_tests sock env g).2.2 = (register_test sock env (options_test sock env g).2.2).2.2 := by
  unfold both_tests
  simp [h]

/-- C5 (amended): in a probe cycle where the link is up and the socket is created, OPTIONS
receives no datagram (`recvfrom` answers no bytes), REGISTER is then sent and a reply arrives,
the reply is logged by the classifier under the category of its status line and the cycle
reports success: its one report line is `ESP32 SIP CLIENT IS WORKING CORRECTLY`, and `NO
RESPONSE FROM SIP SERVER` is not logged, whatever the status code.  In particular a reply
beginning `SIP/2.0 401 Unauthorized` is logged as auth-required and is treated as cycle
success. -/
theorem unauthorized_reply_reports_success (env : CycleEnv) (s : TaskState)
    (hw : env.wifi_connected = true) (hs : 0 ≤ env.socket_ret)
    (hto : env.options_recv.len ≤ 0)
    (hr : env.register.host.isSome = true) (hrs : 0 ≤ env.register.sendto_ret)
    (hrl : 0 < env.register_recv.len) :
    Event.log (LogMsg.response (handle_sip_response (received env.register_recv))) ∈
      (loop_iteration env s).1 ∧
    (loop_iteration env s).1.filter Event.is_report = [Event.log LogMsg.working_correctly] ∧
    Event.log LogMsg.working_correctly ∈ (loop_iteration env s).1 ∧
    Event.log LogMsg.no_response_from_server ∉ (loop_iteration env s).1 ∧
    (∀ rest : CStr,
      received env.register_recv = "SIP/2.0 401 Unauthorized".toList ++ rest →
      Event.log (LogMsg.response Category.auth_required) ∈ (loop_iteration env s).1) := by
  rw [loop_trace env s hw hs]
  generalize generate_random_ids env.r1 env.r2 env.r3 s.g = g1
  obtain ⟨hT, _, _, hres, _⟩ := options_test_facts env.socket_ret env g1
  have h1 : (options_test env.socket_ret env g1).1 = false := by
    rw [hres]
    have : ¬ 0 < env.options_recv.len := by omega
    simp [this]
  obtain ⟨hB1, hB, _⟩ := both_tests_no_datagram env.socket_ret env g1 h1
  generalize (options_test env.socket_ret env g1).2.2 = g2 at hB1 hB
  obtain ⟨⟨tl, htl, hall⟩, hreg⟩ := register_test_facts env.socket_ret env g2
  have hsent : (send_sip_register env.socket_ret env.register
      (generate_random_ids env.r4 env.r5 env.r6 g2)).1 = true := by
    rw [send_sip_register_ret, hr]
    simpa using hrs
  have hrec : (register_test env.socket_ret env g2).1 = true := by
    rw [hreg, hsent]
    simpa using hrl
  have hlog : Event.log (LogMsg.response (handle_sip_response (received env.register_recv))) ∈
      (register_test env.socket_ret env g2).2.1 := by
    unfold register_test
    rw [if_pos hsent]
    apply List.mem_append_right
    unfold await_reply
    rw [if_pos hrl]
    simp
  rw [hB, hB1, hrec]
  have hbody : ∀ e ∈ [Event.log (LogMsg.test_cycle (wrap_int32 (s.test_cycle + 1))),
      Event.socket env.socket_ret, Event.setsockopt env.socket_ret 5,
      Event.log LogMsg.socket_created, Event.random_ids] ++
      ((options_test env.socket_ret env g1).2.1 ++ (register_test env.socket_ret env g2).2.1),
      e.is_report = false := by
    intro e he
    rcases List.mem_append.mp he with h | h
    · revert h
      simp only [List.mem_cons, List.mem_singleton, List.not_mem_nil, or_false]
      rintro (h | h | h | h | h) <;> rw [h] <;> rfl
    · rcases List.mem_append.mp h with h | h
      · exact (hT e h).2.2
      · rw [htl] at h
        rcases List.mem_cons.mp h with h | h
        · rw [h]; rfl
        · rcases List.mem_cons.mp h with h | h
          · rw [h]; rfl
          · exact (hall e h).2.2.2.2
  have hfilter : ([Event.log (LogMsg.test_cycle (wrap_int32 (s.test_cycle + 1))),
      Event.socket env.socket_ret, Event.setsockopt env.socket_ret 5,
      Event.log LogMsg.socket_created, Event.random_ids] ++
      (((options_test env.socket_ret env g1).2.1 ++ (register_test env.socket_ret env g2).2.1) ++
        Event.close env.socket_ret :: report true)).filter Event.is_report =
      [Event.log LogMsg.working_correctly] := by
    rw [← List.append_assoc, List.filter_append, filter_none _ _ hbody]
    rfl
  have hsub : ∀ e, e ∈ [Event.log LogMsg.working_correctly] ↔
      e ∈ [Event.log (LogMsg.test_cycle (wrap_int32 (s.test_cycle + 1))),
        Event.socket env.socket_ret, Event.setsockopt env.socket_ret 5,
        Event.log LogMsg.socket_created, Event.random_ids] ++
        (((options_test env.socket_ret env g1).2.1 ++
          (register_test env.socket_ret env g2).2.1) ++
          Event.close env.socket_ret :: report true) ∧ e.is_report = true := by
    intro e
    rw [← hfilter, List.mem_filter]
  have hmem : Event.log (LogMsg.response (handle_sip_response (received env.register_recv))) ∈
      [Event.log (LogMsg.test_cycle (wrap_int32 (s.test_cycle + 1))),
        Event.socket env.socket_ret, Event.setsockopt env.socket_ret 5,
        Event.log LogMsg.socket_created, Event.random_ids] ++
        (((options_test env.socket_ret env g1).2.1 ++
          (register_test env.socket_ret env g2).2.1) ++
          Event.close env.socket_ret :: report true) :=
    List.mem_append_right _ (List.mem_append_left _ (List.mem_append_right _ hlog))
  refine ⟨hmem, hfilter, ((hsub _).mp (List.mem_singleton.mpr rfl)).1, ?_, ?_⟩
  · intro h
    have h2 := (hsub _).mpr ⟨h, rfl⟩
    exact Event.noConfusion (List.mem_singleton.mp h2) (fun e => LogMsg.noConfusion e)
  · intro rest hrx
    rw [hrx, reply_401_unauthorized] at hmem
    exact hmem

theorem unauthorized_reply_reports_success_witness :
    (loop_iteration scenario_b TaskState.init).1.filter Event.is_report =
      [Event.log LogMsg.working_correctly] ∧
    Event.log (LogMsg.response Category.auth_required) ∈
      (loop_iteration scenario_b TaskState.init).1 :=
  ⟨(unauthorized_reply_reports_success scenario_b TaskState.init (by decide) (by decide)
      (by decide) (by decide) (by decide) (by decide)).2.1,
   (unauthorized_reply_reports_success scenario_b TaskState.init (by decide) (by decide)
      (by decide) (by decide) (by decide) (by decide)).2.2.2.2 [] (by decide)⟩

/-- C5 fails as stated: in scenario B (OPTIONS times out, REGISTER is answered by
`SIP/2.0 401 Unauthorized`) the cycle logs the reply as auth-required and then reports
`ESP32 SIP CLIENT IS WORKING CORRECTLY`; the line `NO RESPONSE FROM SIP SERVER` is not
logged. -/
theorem scenario_b_reports_success :
    (loop_iteration scenario_b TaskState.init).1.filter Event.is_report =
      [Event.log LogMsg.working_correctly] ∧
    Event.log (LogMsg.response Category.auth_required) ∈
      (loop_iteration scenario_b TaskState.init).1 ∧
    Event.log LogMsg.no_response_from_server ∉ (loop_iteration scenario_b TaskState.init).1 := by
  decide

/-! ## One socket per cycle (C7) -/

theorem in_body_unpack (sock : Int) (e : Event) (h : e.in_body sock = true) :
    e.is_socket = false ∧ e.is_close = false ∧ e.is_delay = false ∧
      (e.sock = none ∨ e.sock = some sock) := by
  simpa [Event.in_body, and_assoc] using h

theorem both_tests_in_body (sock : Int) (env : CycleEnv) (g : Globals) :
    ∀ e ∈ (both_tests sock env g).2.1, e.in_body sock = true := by
  obtain ⟨hT, _⟩ := options_test_facts sock env g
  rcases both_tests_cases sock env g with ⟨_, hB, _⟩ | ⟨_, _, tl, hB, htl⟩
  · rw [hB]; exact fun e he => (hT e he).1
  · rw [hB]
    intro e he
    rcases List.mem_append.mp he with h | h
    · exact (hT e h).1
    · rcases List.mem_cons.mp h with h | h
      · rw [h]; rfl
      · rcases List.mem_cons.mp h with h | h
        · rw [h]; simp [Event.in_body, Event.is_socket, Event.is_close, Event.is_delay, Event.sock]
        · exact (htl e h).1

theorem header_events (n sock : Int) :
    ∀ e ∈ [Event.log (LogMsg.test_cycle n), Event.socket sock, Event.setsockopt sock 5,
      Event.log LogMsg.socket_created, Event.random_ids],
      e.is_close = false ∧ e.is_delay = false ∧ ∀ k, e.sock = some k → k = sock := by
  simp [Event.is_close, Event.is_delay, Event.sock]

/-- C7: in every iteration of the probe loop whose socket creation succeeds, whatever the
lookups, sends and receives answer, exactly one socket is created and it is closed exactly once;
nothing operates on a socket before the creation or after the close, so the close follows the
last send and receive; no delay precedes the close and the 30 s cooldown follows it; every call
of the iteration that takes a socket (`setsockopt`, `sendto`, `recvfrom`, `close` and the two
builders) is given the socket created in this iteration. -/
theorem one_socket_per_cycle (env : CycleEnv) (s : TaskState)
    (hw : env.wifi_connected = true) (hs : 0 ≤ env.socket_ret) :
    (loop_iteration env s).1.filter Event.is_socket = [Event.socket env.socket_ret] ∧
    (loop_iteration env s).1.filter Event.is_close = [Event.close env.socket_ret] ∧
    (∀ e ∈ events_before Event.is_socket (loop_iteration env s).1, e.sock = none) ∧
    (∀ e ∈ events_after Event.is_close (loop_iteration env s).1,
      e.sock = none ∧ e.is_sendto = false ∧ e.is_recvfrom = false ∧ e.is_socket = false) ∧
    (∀ e ∈ events_before Event.is_close (loop_iteration env s).1, e.is_delay = false) ∧
    Event.delay 30000 ∈ events_after Event.is_close (loop_iteration env s).1 ∧
    (∀ e ∈ (loop_iteration env s).1, ∀ k, e.sock = some k → k = env.socket_ret) := by
  rw [loop_trace env s hw hs]
  generalize generate_random_ids env.r1 env.r2 env.r3 s.g = g1
  have hB := both_tests_in_body env.socket_ret env g1
  generalize (both_tests env.socket_ret env g1).2.1 = B at hB
  generalize (both_tests env.socket_ret env g1).1 = r
  have hBu := fun e he => in_body_unpack env.socket_ret e (hB e he)
  have hR := report_events r
  have hdelay : Event.delay 30000 ∈ report r := by cases r <;> simp [report]
  have hpre : ∀ e ∈ [Event.log (LogMsg.test_cycle (wrap_int32 (s.test_cycle + 1))),
      Event.socket env.socket_ret, Event.setsockopt env.socket_ret 5,
      Event.log LogMsg.socket_created, Event.random_ids] ++ B,
      e.is_close = false ∧ e.is_delay = false := by
    intro e he
    rcases List.mem_append.mp he with h | h
    · exact ⟨(header_events _ _ e h).1, (header_events _ _ e h).2.1⟩
    · exact ⟨(hBu e h).2.1, (hBu e h).2.2.1⟩
  refine ⟨?_, ?_, ?_, ?_, ?_, ?_, ?_⟩
  · have h1 : (B ++ Event.close env.socket_ret :: report r).filter Event.is_socket = [] :=
      filter_none _ _ (by
        intro e he
        rcases List.mem_append.mp he with h | h
        · exact (hBu e h).1
        · rcases List.mem_cons.mp h with h | h
          · rw [h]; rfl
          · exact (hR e h).2.2.2.2.2.1)
    rw [List.filter_append, h1]
    simp [List.filter_cons, Event.is_socket]
  · rw [← List.append_assoc, List.filter_append, filter_none _ _ (fun e he => (hpre e he).1),
      List.filter_cons_of_pos rfl, filter_none _ _ (fun e he => (hR e he).2.2.2.2.2.2.1)]
    rfl
  · have e1 : events_before Event.is_socket
        ([Event.log (LogMsg.test_cycle (wrap_int32 (s.test_cycle + 1))),
          Event.socket env.socket_ret, Event.setsockopt env.socket_ret 5,
          Event.log LogMsg.socket_created, Event.random_ids] ++
          (B ++ Event.close env.socket_ret :: report r)) =
        [Event.log (LogMsg.test_cycle (wrap_int32 (s.test_cycle + 1)))] := by
      simp [events_before, List.takeWhile_cons, Event.is_socket]
    rw [e1]
    simp [Event.sock]
  · rw [← List.append_assoc, events_after_append _ _ _ (fun e he => (hpre e he).1),
      events_after_hit _ _ _ rfl]
    intro e he
    exact ⟨(hR e he).2.2.2.2.2.2.2, (hR e he).2.2.2.1, (hR e he).2.2.2.2.1,
      (hR e he).2.2.2.2.2.1⟩
  · rw [← List.append_assoc, events_before_append _ _ _ (fun e he => (hpre e he).1),
      events_before_hit _ _ _ rfl, List.append_nil]
    exact fun e he => (hpre e he).2
  · rw [← List.append_assoc, events_after_append _ _ _ (fun e he => (hpre e he).1),
      events_after_hit _ _ _ rfl]
    exact hdelay
  · intro e he k hk
    rcases List.mem_append.mp he with h | h
    · exact (header_events _ _ e h).2.2 k hk
    · rcases List.mem_append.mp h with h | h
      · rcases (hBu e h).2.2.2 with h2 | h2
        · rw [h2] at hk; exact Option.noConfusion hk
        · rw [h2] at hk; exact (Option.some.inj hk).symm
      · rcases List.mem_cons.mp h with h | h
        · rw [h] at hk; exact (Option.some.inj hk).symm
        · rw [(hR e h).2.2.2.2.2.2.2] at hk; exact Option.noConfusion hk

theorem one_socket_per_cycle_witness :
    (loop_iteration resolution_failure TaskState.init).1.filter Event.is_socket =
      [Event.socket resolution_failure.socket_ret] ∧
    (loop_iteration resolution_failure TaskState.init).1.filter Event.is_close =
      [Event.close resolution_failure.socket_ret] :=
  ⟨(one_socket_per_cycle resolution_failure TaskState.init (by decide) (by decide)).1,
   (one_socket_per_cycle resolution_failure TaskState.init (by decide) (by decide)).2.1⟩

/-! ## Cooldowns (C8) -/

theorem both_tests_no_delay (sock : Int) (env : CycleEnv) (g : Globals) :
    ∀ e ∈ (both_tests sock env g).2.1, e.is_delay = false ∧ e.delay_ms = 0 := by
  intro e he
  have h := (in_body_unpack sock e (both_tests_in_body sock env g e he)).2.2.1
  refine ⟨h, ?_⟩
  cases e <;> first | rfl | simp [Event.is_delay] at h

theorem cooldown_zero (l : List Event) (h : ∀ e ∈ l, e.delay_ms = 0) : cooldown l = 0 := by
  induction l with
  | nil => rfl
  | cons x xs ih =>
    have hx := h x (List.mem_cons_self _ _)
    have ht := ih (fun e he => h e (List.mem_cons_of_mem _ he))
    rw [cooldown, hx, ht]

theorem cooldown_append (a b : List Event) : cooldown (a ++ b) = cooldown a + cooldown b := by
  induction a with
  | nil => simp [cooldown]
  | cons x xs ih => rw [List.cons_append, cooldown, cooldown, ih, Nat.add_assoc]

theorem created_cycle_cooldown (env : CycleEnv) (s : TaskState)
    (hw : env.wifi_connected = true) (hs : 0 ≤ env.socket_ret) :
    (loop_iteration env s).1.filter Event.is_delay = [Event.delay 30000] ∧
    cooldown (loop_iteration env s).1 = 30000 ∧
    (loop_iteration env s).1.getLast? = some (Event.delay 30000) := by
  rw [loop_trace env s hw hs]
  generalize generate_random_ids env.r1 env.r2 env.r3 s.g = g1
  have hB := both_tests_no_delay env.socket_ret env g1
  generalize (both_tests env.socket_ret env g1).2.1 = B at hB
  generalize (both_tests env.socket_ret env g1).1 = r
  have hr1 : cooldown (Event.close env.socket_ret :: report r) = 30000 := by
    have h0 : cooldown (report r) = 30000 := by cases r <;> rfl
    rw [cooldown, h0, show Event.delay_ms (Event.close env.socket_ret) = 0 from rfl,
      Nat.zero_add]
  have hr2 : (Event.close env.socket_ret :: report r).getLast? = some (Event.delay 30000) := by
    cases r <;> rfl
  have hr3 : (Event.close env.socket_ret :: report r).filter Event.is_delay =
      [Event.delay 30000] := by
    cases r <;> rfl
  have hH : ∀ e ∈ [Event.log (LogMsg.test_cycle (wrap_int32 (s.test_cycle + 1))),
      Event.socket env.socket_ret, Event.setsockopt env.socket_ret 5,
      Event.log LogMsg.socket_created, Event.random_ids], e.is_delay = false ∧ e.delay_ms = 0 := by
    intro e he
    have h := (header_events _ _ e he).2.1
    refine ⟨h, ?_⟩
    cases e <;> first | rfl | simp [Event.is_delay] at h
  refine ⟨?_, ?_, ?_⟩
  · rw [List.filter_append, List.filter_append, filter_none _ B (fun e he => (hB e he).1),
      filter_none _ _ (fun e he => (hH e he).1), hr3]
    rfl
  · rw [cooldown_append, cooldown_append, cooldown_zero B (fun e he => (hB e he).2),
      cooldown_zero _ (fun e he => (hH e he).2), hr1]
  · rw [List.getLast?_append_of_ne_nil _ (by simp), List.getLast?_append_of_ne_nil _ (by simp),
      hr2]

theorem failed_cycle_trace (env : CycleEnv) (s : TaskState)
    (hw : env.wifi_connected = true) (hs : env.socket_ret < 0) :
    loop_iteration env s =
      ([Event.log (LogMsg.test_cycle (wrap_int32 (s.test_cycle + 1))),
        Event.socket env.socket_ret, Event.log LogMsg.unable_to_create_socket,
        Event.log LogMsg.failed_to_create_socket, Event.delay 10000],
       { s with test_cycle := wrap_int32 (s.test_cycle + 1) }) := by
  simp [loop_iteration, create_udp_socket, hw, hs]

/-- C8 (amended): when socket creation fails at the start of a probe cycle, that iteration
sends no request (no builder is called, the globals are unchanged) and its only wait is the
failure cooldown of 10 s, after which the loop goes on with the next iteration; every cycle in
which the socket was created, including one where the server name resolves for neither
request, ends with the standard cooldown of 30 s as its only wait.  The failure cooldown is
shorter than the standard cooldown. -/
theorem socket_failure_cooldown :
    (∀ (env : CycleEnv) (s : TaskState), env.wifi_connected = true → env.socket_ret < 0 →
      (∀ e ∈ (loop_iteration env s).1, e.is_sendto = false ∧ e.is_call_options = false ∧
        e.is_call_register = false) ∧
      (loop_iteration env s).2.g = s.g ∧
      (loop_iteration env s).1.filter Event.is_delay = [Event.delay 10000] ∧
      (loop_iteration env s).1.getLast? = some (Event.delay 10000) ∧
      cooldown (loop_iteration env s).1 = 10000 ∧
      ∀ envs : List CycleEnv, (sip_client_loop (env :: envs) s).1 =
        (loop_iteration env s).1 ++ (sip_client_loop envs (loop_iteration env s).2).1) ∧
    (∀ (env : CycleEnv) (s : TaskState), env.wifi_connected = true → 0 ≤ env.socket_ret →
      (loop_iteration env s).1.filter Event.is_delay = [Event.delay 30000] ∧
      (loop_iteration env s).1.getLast? = some (Event.delay 30000) ∧
      cooldown (loop_iteration env s).1 = 30000) ∧
    (∀ (failed created : CycleEnv) (s t : TaskState),
      failed.wifi_connected = true → failed.socket_ret < 0 →
      created.wifi_connected = true → 0 ≤ created.socket_ret →
      cooldown (loop_iteration failed s).1 < cooldown (loop_iteration created t).1) := by
  have hfail : ∀ (env : CycleEnv) (s : TaskState), env.wifi_connected = true →
      env.socket_ret < 0 → cooldown (loop_iteration env s).1 = 10000 := by
    intro env s hw hs
    rw [failed_cycle_trace env s hw hs]
    simp only [cooldown, Event.delay_ms, Nat.zero_add, Nat.add_zero]
  refine ⟨?_, ?_, ?_⟩
  · intro env s hw hs
    refine ⟨?_, ?_, ?_, ?_, hfail env s hw hs, fun envs => rfl⟩
    · rw [failed_cycle_trace env s hw hs]
      simp [Event.is_sendto, Event.is_call_options, Event.is_call_register]
    · rw [failed_cycle_trace env s hw hs]
    · rw [failed_cycle_trace env s hw hs]
      simp [List.filter_cons, Event.is_delay]
    · rw [failed_cycle_trace env s hw hs]
      rfl
  · intro env s hw hs
    obtain ⟨h1, h2, h3⟩ := created_cycle_cooldown env s hw hs
    exact ⟨h1, h3, h2⟩
  · intro failed created s t hw1 hs1 hw2 hs2
    rw [hfail failed s hw1 hs1, (created_cycle_cooldown created t hw2 hs2).2.1]
    decide

theorem socket_failure_cooldown_witness :
    cooldown (loop_iteration socket_failure TaskState.init).1 = 10000 ∧
    cooldown (loop_iteration resolution_failure TaskState.init).1 = 30000 ∧
    cooldown (loop_iteration socket_failure TaskState.init).1 <
      cooldown (loop_iteration resolution_failure TaskState.init).1 :=
  ⟨(socket_failure_cooldown.1 socket_failure TaskState.init (by decide) (by decide)).2.2.2.2.1,
   (socket_failure_cooldown.2.1 resolution_failure TaskState.init (by decide) (by decide)).2.2,
   socket_failure_cooldown.2.2 socket_failure resolution_failure TaskState.init TaskState.init
     (by decide) (by decide) (by decide) (by decide)⟩

/-- C8 fails as stated: the cycle whose socket creation fails waits 10 s, the cycle whose two
lookups fail waits 30 s, so the failure cooldown is not longer than the standard cooldown. -/
theorem failure_cooldown_not_longer :
    cooldown (loop_iteration socket_failure TaskState.init).1 = 10000 ∧
    cooldown (loop_iteration resolution_failure TaskState.init).1 = 30000 ∧
    ¬ (cooldown (loop_iteration socket_failure TaskState.init).1 >
        cooldown (loop_iteration resolution_failure TaskState.init).1) := by
  decide

/-! ## Link down (C9) -/

/-- C9: an iteration of the probe loop that starts with `wifi_connected` false logs that the
link is down and waits 5 s, and does nothing else: no socket is created, no identifiers are
regenerated, no builder is called and nothing is sent; the globals (identifiers and `cseq`) and
the test-cycle counter are unchanged; the loop then goes on with the next iteration, which
starts by reading the flag again, from the same state. -/
theorem link_down_skips_cycle (env : CycleEnv) (s : TaskState)
    (hw : env.wifi_connected = false) :
    (loop_iteration env s).1 = [Event.log LogMsg.wifi_disconnected, Event.delay 5000] ∧
    (∀ e ∈ (loop_iteration env s).1, e.is_socket = false ∧ e ≠ Event.random_ids ∧
      e.is_call_options = false ∧ e.is_call_register = false ∧ e.is_sendto = false ∧
      e.is_recvfrom = false) ∧
    (loop_iteration env s).2.g = s.g ∧
    (loop_iteration env s).2.g.cseq = s.g.cseq ∧
    (loop_iteration env s).2.test_cycle = s.test_cycle ∧
    (∀ envs : List CycleEnv,
      sip_client_loop (env :: envs) s =
        ([Event.log LogMsg.wifi_disconnected, Event.delay 5000] ++ (sip_client_loop envs s).1,
         (sip_client_loop envs s).2)) := by
  have h : loop_iteration env s =
      ([Event.log LogMsg.wifi_disconnected, Event.delay 5000], s) := by
    simp [loop_iteration, hw]
  refine ⟨by rw [h], ?_, by rw [h], by rw [h], by rw [h], ?_⟩
  · rw [h]
    simp [Event.is_socket, Event.is_call_options, Event.is_call_register, Event.is_sendto,
      Event.is_recvfrom]
  · intro envs
    simp only [sip_client_loop, h]

theorem link_down_skips_cycle_witness :
    (loop_iteration { scenario_b with wifi_connected := false } TaskState.init).1 =
      [Event.log LogMsg.wifi_disconnected, Event.delay 5000] ∧
    (loop_iteration { scenario_b with wifi_connected := false } TaskState.init).2.test_cycle =
      TaskState.init.test_cycle :=
  ⟨(link_down_skips_cycle { scenario_b with wifi_connected := false } TaskState.init rfl).1,
   (link_down_skips_cycle { scenario_b with wifi_connected := false } TaskState.init
      rfl).2.2.2.2.1⟩

/-! ## Link events (C10) -/

theorem handle_events_append (a b : List LinkEvent) (st : LinkState) :
    handle_events (a ++ b) st =
      ((handle_events a st).1 ++ (handle_events b (handle_events a st).2).1,
       (handle_events b (handle_events a st).2).2) := by
  induction a generalizing st with
  | nil => rfl
  | cons e es ih =>
    have h := ih (event_handler e st).2
    simp only [List.cons_append, handle_events]
    have h1 : (handle_events (es.append b) (event_handler e st).2) = _ := h
    rw [h1]

theorem retries_snoc (log : List (LinkEvent × List LinkAction))
    (p : LinkEvent × List LinkAction) :
    retries_since_got_ip (log ++ [p]) =
      if p.1 = LinkEvent.got_ip then 0
      else retries_since_got_ip log +
        (if p.1 = LinkEvent.sta_disconnected ∧ LinkAction.esp_wifi_connect ∈ p.2 then 1 else 0) := by
  unfold retries_since_got_ip
  rw [List.reverse_append, List.reverse_singleton, List.singleton_append]
  by_cases h : p.1 = LinkEvent.got_ip
  · simp [List.takeWhile_cons, h]
  · by_cases h2 : p.1 = LinkEvent.sta_disconnected ∧ LinkAction.esp_wifi_connect ∈ p.2
    · simp [List.takeWhile_cons, h, List.filter_cons, h2]
    · simp [List.takeWhile_cons, h, List.filter_cons, h2]

theorem event_handler_disconnected_retry (st : LinkState) (h : st.s_retry_num < 10) :
    event_handler LinkEvent.sta_disconnected st =
      ([LinkAction.esp_wifi_connect],
       { st with s_retry_num := st.s_retry_num + 1, wifi_connected := false }) := by
  simp [event_handler, h]

theorem event_handler_disconnected_fail (st : LinkState) (h : ¬ st.s_retry_num < 10) :
    event_handler LinkEvent.sta_disconnected st =
      ([LinkAction.set_fail_bit], { st with fail_bit := true, wifi_connected := false }) := by
  simp [event_handler, h]

theorem retry_counts_attempts (es : List LinkEvent) (st : LinkState)
    (h0 : st.s_retry_num = 0) :
    (handle_events es st).2.s_retry_num = (retries_since_got_ip (handle_events es st).1 : Int) ∧
    (handle_events es st).2.s_retry_num ≤ 10 := by
  induction es using List.reverseRecOn with
  | nil => simp [handle_events, retries_since_got_ip, h0]
  | append_singleton es e ih =>
    obtain ⟨ih1, ih2⟩ := ih
    rw [handle_events_append]
    simp only [handle_events, retries_snoc]
    generalize (handle_events es st).2 = st1 at ih1 ih2 ⊢
    generalize retries_since_got_ip (handle_events es st).1 = n at ih1 ⊢
    cases e with
    | sta_start =>
      have h : event_handler LinkEvent.sta_start st1 = ([LinkAction.esp_wifi_connect], st1) := rfl
      rw [h]
      simp [ih1, ih2]
      omega
    | sta_disconnected =>
      by_cases hlt : st1.s_retry_num < 10
      · rw [event_handler_disconnected_retry st1 hlt]
        simp [ih1]
        omega
      · rw [event_handler_disconnected_fail st1 hlt]
        simp [ih1]
        omega
    | got_ip =>
      have h : event_handler LinkEvent.got_ip st1 = ([LinkAction.set_connected_bit],
          { st1 with s_retry_num := 0, wifi_connected := true, connected_bit := true }) := rfl
      rw [h]
      simp
    | other =>
      have h : event_handler LinkEvent.other st1 = ([], st1) := rfl
      rw [h]
      simp [ih1, ih2]
      omega

theorem fail_bit_source (e : LinkEvent) (st : LinkState)
    (h : (event_handler e st).2.fail_bit = true) :
    st.fail_bit = true ∨ (e = LinkEvent.sta_disconnected ∧ ¬ st.s_retry_num < 10) := by
  cases e with
  | sta_start => exact Or.inl h
  | sta_disconnected =>
    by_cases hlt : st.s_retry_num < 10
    · rw [event_handler_disconnected_retry st hlt] at h
      exact Or.inl h
    · exact Or.inr ⟨rfl, hlt⟩
  | got_ip => exact Or.inl h
  | other => exact Or.inl h

theorem fail_bit_not_earlier (es : List LinkEvent) (st : LinkState)
    (h0 : st.s_retry_num = 0) (hf : st.fail_bit = false)
    (h : (handle_events es st).2.fail_bit = true) :
    ∃ a b, es = a ++ LinkEvent.sta_disconnected :: b ∧
      retries_since_got_ip (handle_events a st).1 = 10 := by
  induction es using List.reverseRecOn with
  | nil =>
    rw [show (handle_events [] st).2 = st from rfl, hf] at h
    exact Bool.noConfusion h
  | append_singleton es e ih =>
    rw [handle_events_append] at h
    simp only [handle_events] at h
    rcases fail_bit_source e _ h with h1 | ⟨h1, h2⟩
    · obtain ⟨a, b, hab, hn⟩ := ih h1
      exact ⟨a, b ++ [e], by rw [hab]; simp, hn⟩
    · obtain ⟨r1, r2⟩ := retry_counts_attempts es st h0
      refine ⟨es, [], by rw [h1], ?_⟩
      have : (retries_since_got_ip (handle_events es st).1 : Int) = 10 := by omega
      exact_mod_cast this

theorem connection_attempts_snoc (log : List (LinkEvent × List LinkAction))
    (p : LinkEvent × List LinkAction) :
    connection_attempts_since_got_ip (log ++ [p]) =
      if p.1 = LinkEvent.got_ip then 0
      else connection_attempts_since_got_ip log +
        (if LinkAction.esp_wifi_connect ∈ p.2 then 1 else 0) := by
  unfold connection_attempts_since_got_ip
  rw [List.reverse_append, List.reverse_singleton, List.singleton_append]
  by_cases h : p.1 = LinkEvent.got_ip
  · simp [List.takeWhile_cons, h]
  · by_cases h2 : LinkAction.esp_wifi_connect ∈ p.2
    · simp [List.takeWhile_cons, h, List.filter_cons, h2]
    · simp [List.takeWhile_cons, h, List.filter_cons, h2]

theorem disconnects_after (pre : List LinkEvent) (st : LinkState) (c0 : Nat)
    (h0 : (handle_events pre st).2.s_retry_num = 0)
    (hf : (handle_events pre st).2.fail_bit = false)
    (hr : retries_since_got_ip (handle_events pre st).1 = 0)
    (hc : connection_attempts_since_got_ip (handle_events pre st).1 = c0) (n : Nat) :
    (handle_events (pre ++ List.replicate n LinkEvent.sta_disconnected) st).2.s_retry_num =
      ((min n 10 : Nat) : Int) ∧
    ((handle_events (pre ++ List.replicate n LinkEvent.sta_disconnected) st).2.fail_bit = true ↔
      11 ≤ n) ∧
    retries_since_got_ip
      (handle_events (pre ++ List.replicate n LinkEvent.sta_disconnected) st).1 = min n 10 ∧
    connection_attempts_since_got_ip
      (handle_events (pre ++ List.replicate n LinkEvent.sta_disconnected) st).1 =
        c0 + min n 10 := by
  induction n with
  | zero =>
    simp only [List.replicate_zero, List.append_nil]
    refine ⟨by rw [h0]; rfl, ?_, by rw [hr]; rfl, by rw [hc]; rfl⟩
    rw [hf]
    constructor
    · intro h; exact Bool.noConfusion h
    · intro h; omega
  | succ k ih =>
    obtain ⟨i1, i2, i3, i4⟩ := ih
    rw [List.replicate_succ', ← List.append_assoc, handle_events_append]
    simp only [handle_events, retries_snoc, connection_attempts_snoc]
    generalize (handle_events (pre ++ List.replicate k LinkEvent.sta_disconnected) st).2 = s1
      at i1 i2 ⊢
    generalize retries_since_got_ip
      (handle_events (pre ++ List.replicate k LinkEvent.sta_disconnected) st).1 = r at i3 ⊢
    generalize connection_attempts_since_got_ip
      (handle_events (pre ++ List.replicate k LinkEvent.sta_disconnected) st).1 = c at i4 ⊢
    by_cases hlt : s1.s_retry_num < 10
    · rw [event_handler_disconnected_retry s1 hlt]
      have hk : k < 10 := by omega
      have hnf : ¬ s1.fail_bit = true := fun h => by have := i2.mp h; omega
      simp only [reduceCtorEq, if_false, List.mem_singleton, and_self, if_true]
      refine ⟨by rw [i1]; omega, ?_, by omega, by omega⟩
      constructor
      · intro h; exact absurd h hnf
      · intro h; omega
    · rw [event_handler_disconnected_fail s1 hlt]
      have hk : 10 ≤ k := by omega
      simp only [reduceCtorEq, if_false, List.mem_singleton, and_false, Nat.add_zero]
      refine ⟨by rw [i1]; omega, ?_, by omega, by omega⟩
      constructor
      · intro _; omega
      · intro _; trivial

theorem start_then_disconnects (st : LinkState) (h0 : st.s_retry_num = 0)
    (hf : st.fail_bit = false) (n : Nat) :
    ((handle_events (LinkEvent.sta_start :: List.replicate n LinkEvent.sta_disconnected)
      st).2.fail_bit = true ↔ 11 ≤ n) ∧
    retries_since_got_ip
      (handle_events (LinkEvent.sta_start :: List.replicate n LinkEvent.sta_disconnected)
        st).1 = min n 10 ∧
    connection_attempts_since_got_ip
      (handle_events (LinkEvent.sta_start :: List.replicate n LinkEvent.sta_disconnected)
        st).1 = 1 + min n 10 := by
  have h := disconnects_after [LinkEvent.sta_start] st 1 h0 hf
    (by simp [handle_events, event_handler, retries_since_got_ip])
    (by simp [handle_events, event_handler, connection_attempts_since_got_ip]) n
  exact ⟨h.2.1, h.2.2.1, h.2.2.2⟩

theorem only_disconnects (st : LinkState) (h0 : st.s_retry_num = 0)
    (hf : st.fail_bit = false) (n : Nat) :
    ((handle_events (List.replicate n LinkEvent.sta_disconnected) st).2.fail_bit = true ↔
      11 ≤ n) ∧
    retries_since_got_ip
      (handle_events (List.replicate n LinkEvent.sta_disconnected) st).1 = min n 10 := by
  have h := disconnects_after [] st 0 h0 hf rfl rfl n
  exact ⟨h.2.1, h.2.2.1⟩

/-- C10 (amended): for every sequence of link events handled from a state with retry counter 0
and the failure signal not raised, the retry counter stays in the range 0..10 and equals the
number of reconnection attempts (the `esp_wifi_connect()` calls made in answer to disconnect
events; the connect made on a start event is not counted) since the last got-IP event; a
disconnect event raises the failure signal exactly when 10 reconnection attempts have been made
without an intervening got-IP, and the signal is never raised earlier: if it is raised, some
disconnect event of the sequence was handled after 10 reconnection attempts.  The signal is
raised: after `n` disconnect events in a row, with or without a start event before them, it is
up exactly when `n` is at least 11, and when a start event came first 1 + min n 10 connection
attempts have been made by then.  A got-IP event resets the counter to 0 and sets the connected
flag, every disconnect event clears the connected flag, and no other event raises the failure
signal. -/
theorem link_retry_invariant :
    (∀ (es : List LinkEvent) (st : LinkState), st.s_retry_num = 0 → st.fail_bit = false →
      0 ≤ (handle_events es st).2.s_retry_num ∧ (handle_events es st).2.s_retry_num ≤ 10 ∧
      (handle_events es st).2.s_retry_num =
        (retries_since_got_ip (handle_events es st).1 : Int) ∧
      (LinkAction.set_fail_bit ∈
          (event_handler LinkEvent.sta_disconnected (handle_events es st).2).1 ↔
        retries_since_got_ip (handle_events es st).1 = 10) ∧
      ((handle_events es st).2.fail_bit = true →
        ∃ a b, es = a ++ LinkEvent.sta_disconnected :: b ∧
          retries_since_got_ip (handle_events a st).1 = 10)) ∧
    (∀ (st : LinkState) (n : Nat), st.s_retry_num = 0 → st.fail_bit = false →
      ((handle_events (List.replicate n LinkEvent.sta_disconnected) st).2.fail_bit = true ↔
        11 ≤ n) ∧
      ((handle_events (LinkEvent.sta_start :: List.replicate n LinkEvent.sta_disconnected)
        st).2.fail_bit = true ↔ 11 ≤ n) ∧
      retries_since_got_ip
        (handle_events (LinkEvent.sta_start :: List.replicate n LinkEvent.sta_disconnected)
          st).1 = min n 10 ∧
      connection_attempts_since_got_ip
        (handle_events (LinkEvent.sta_start :: List.replicate n LinkEvent.sta_disconnected)
          st).1 = 1 + min n 10) ∧
    (∀ st : LinkState,
      (event_handler LinkEvent.got_ip st).2.s_retry_num = 0 ∧
      (event_handler LinkEvent.got_ip st).2.wifi_connected = true) ∧
    (∀ st : LinkState,
      (event_handler LinkEvent.sta_disconnected st).2.wifi_connected = false) ∧
    (∀ (e : LinkEvent) (st : LinkState),
      LinkAction.set_fail_bit ∈ (event_handler e st).1 → e = LinkEvent.sta_disconnected) := by
  refine ⟨?_, ?_, fun st => ⟨rfl, rfl⟩, ?_, ?_⟩
  · intro es st h0 hf
    obtain ⟨r1, r2⟩ := retry_counts_attempts es st h0
    refine ⟨by omega, r2, r1, ?_, fail_bit_not_earlier es st h0 hf⟩
    by_cases hlt : (handle_events es st).2.s_retry_num < 10
    · rw [event_handler_disconnected_retry _ hlt]
      constructor
      · intro h; simp at h
      · intro h; omega
    · rw [event_handler_disconnected_fail _ hlt]
      constructor
      · intro _
        have : (retries_since_got_ip (handle_events es st).1 : Int) = 10 := by omega
        exact_mod_cast this
      · intro _; simp
  · intro st n h0 hf
    exact ⟨(only_disconnects st h0 hf n).1, start_then_disconnects st h0 hf n⟩
  · intro st
    by_cases hlt : st.s_retry_num < 10
    · rw [event_handler_disconnected_retry _ hlt]
    · rw [event_handler_disconnected_fail _ hlt]
  · intro e st h
    cases e with
    | sta_start => simp [event_handler] at h
    | sta_disconnected => rfl
    | got_ip => simp [event_handler] at h
    | other => simp [event_handler] at h

theorem link_retry_invariant_witness :
    (LinkAction.set_fail_bit ∈ (event_handler LinkEvent.sta_disconnected
        (handle_events (LinkEvent.sta_start :: List.replicate 10 LinkEvent.sta_disconnected)
          LinkState.init).2).1 ↔
      retries_since_got_ip
        (handle_events (LinkEvent.sta_start :: List.replicate 10 LinkEvent.sta_disconnected)
          LinkState.init).1 = 10) ∧
    ((handle_events (List.replicate 11 LinkEvent.sta_disconnected)
        LinkState.init).2.fail_bit = true →
      ∃ a b, List.replicate 11 LinkEvent.sta_disconnected = a ++ LinkEvent.sta_disconnected :: b ∧
        retries_since_got_ip (handle_events a LinkState.init).1 = 10) ∧
    connection_attempts_since_got_ip
      (handle_events (LinkEvent.sta_start :: List.replicate 11 LinkEvent.sta_disconnected)
        LinkState.init).1 = 1 + min 11 10 :=
  ⟨(link_retry_invariant.1 (LinkEvent.sta_start :: List.replicate 10 LinkEvent.sta_disconnected)
      LinkState.init (by decide) (by decide)).2.2.2.1,
   (link_retry_invariant.1 (List.replicate 11 LinkEvent.sta_disconnected)
      LinkState.init (by decide) (by decide)).2.2.2.2,
   (link_retry_invariant.2.1 LinkState.init 11 (by decide) (by decide)).2.2.2⟩

/-- C10 fails as stated: from boot, the start event and nine disconnect events make 10
connection attempts with no got-IP, yet the next disconnect event does not raise the failure
signal: it makes an 11th attempt.  The signal is raised by the disconnect event after that one,
when 11 connection attempts have been made. -/
theorem ten_connection_attempts_no_signal :
    connection_attempts_since_got_ip
      (handle_events (LinkEvent.sta_start :: List.replicate 9 LinkEvent.sta_disconnected)
        LinkState.init).1 = 10 ∧
    (event_handler LinkEvent.sta_disconnected
      (handle_events (LinkEvent.sta_start :: List.replicate 9 LinkEvent.sta_disconnected)
        LinkState.init).2).1 = [LinkAction.esp_wifi_connect] ∧
    LinkAction.set_fail_bit ∉ (event_handler LinkEvent.sta_disconnected
      (handle_events (LinkEvent.sta_start :: List.replicate 9 LinkEvent.sta_disconnected)
        LinkState.init).2).1 ∧
    (handle_events (LinkEvent.sta_start :: List.replicate 10 LinkEvent.sta_disconnected)
      LinkState.init).2.fail_bit = false ∧
    connection_attempts_since_got_ip
      (handle_events (LinkEvent.sta_start :: List.replicate 10 LinkEvent.sta_disconnected)
        LinkState.init).1 = 11 ∧
    LinkAction.set_fail_bit ∈ (event_handler LinkEvent.sta_disconnected
      (handle_events (LinkEvent.sta_start :: List.replicate 10 LinkEvent.sta_disconnected)
        LinkState.init).2).1 := by
  decide

/-! ## The globals stay within their C types -/

theorem snprintf_length (size : Nat) (text : CStr) : (snprintf size text).length ≤ size - 1 := by
  unfold snprintf
  exact List.length_take_le _ _

theorem wrap_int32_range (v : Int) :
    -2147483648 ≤ wrap_int32 v ∧ wrap_int32 v ≤ 2147483647 := by
  unfold wrap_int32
  omega

theorem init_fits : Globals.init.fits := by decide

theorem generate_random_ids_fits (random1 random2 random3 : Nat) (g : Globals) (h : g.fits) :
    (generate_random_ids random1 random2 random3 g).fits :=
  ⟨snprintf_length 64 _, snprintf_length 32 _, snprintf_length 64 _, h.2.2.2.1, h.2.2.2.2⟩

theorem send_request_fits (c : SendCall) (g : Globals) (h : g.fits) :
    (send_request c g).2.2.fits := by
  rw [send_request_cseq]
  by_cases hb : c.builds = true
  · rw [if_pos hb]
    exact ⟨h.1, h.2.1, h.2.2.1, (wrap_int32_range _).1, (wrap_int32_range _).2⟩
  · rw [if_neg hb]
    exact h

/-! ## No truncation with the build-time configuration (C11) -/

theorem generate_random_ids_fits_of_cseq (random1 random2 random3 : Nat) (g : Globals)
    (h1 : -2147483648 ≤ g.cseq) (h2 : g.cseq ≤ 2147483647) :
    (generate_random_ids random1 random2 random3 g).fits :=
  ⟨snprintf_length 64 _, snprintf_length 32 _, snprintf_length 64 _, h1, h2⟩

/-- C11: with the build-time configuration (`SIP_SERVER`, `SIP_PORT`, `SIP_USER`), for every
local address, every identifier triple produced by `generate_random_ids` and every 32-bit value
of the sequence counter: the local address is rendered in at most 15 characters, the formatted
OPTIONS text has at most 511 characters and the formatted REGISTER text at most 1023, so the
contents of `sip_msg` are the whole formatted text in both builders, and when the server name
resolves the text handed to `sendto` is that complete request. -/
theorem configured_requests_never_truncated (sock : Int) (env : SendEnv)
    (random1 random2 random3 : Nat) (g : Globals)
    (h1 : -2147483648 ≤ g.cseq) (h2 : g.cseq ≤ 2147483647) :
    SIP_SERVER = "opensips.org".toList ∧ SIP_PORT = 5060 ∧ SIP_USER = "test".toList ∧
    (ip2str env.ip).length ≤ 15 ∧
    (options_format SIP_SERVER SIP_PORT (ip2str env.ip)
      (generate_random_ids random1 random2 random3 g).branch_id SIP_USER
      (generate_random_ids random1 random2 random3 g).local_tag
      (generate_random_ids random1 random2 random3 g).call_id g.cseq).length ≤ 511 ∧
    (register_format SIP_SERVER SIP_PORT (ip2str env.ip)
      (generate_random_ids random1 random2 random3 g).branch_id SIP_USER
      (generate_random_ids random1 random2 random3 g).local_tag
      (generate_random_ids random1 random2 random3 g).call_id g.cseq).length ≤ 1023 ∧
    options_msg SIP_SERVER SIP_PORT (ip2str env.ip)
        (generate_random_ids random1 random2 random3 g).branch_id SIP_USER
        (generate_random_ids random1 random2 random3 g).local_tag
        (generate_random_ids random1 random2 random3 g).call_id g.cseq =
      options_format SIP_SERVER SIP_PORT (ip2str env.ip)
        (generate_random_ids random1 random2 random3 g).branch_id SIP_USER
        (generate_random_ids random1 random2 random3 g).local_tag
        (generate_random_ids random1 random2 random3 g).call_id g.cseq ∧
    register_msg SIP_SERVER SIP_PORT (ip2str env.ip)
        (generate_random_ids random1 random2 random3 g).branch_id SIP_USER
        (generate_random_ids random1 random2 random3 g).local_tag
        (generate_random_ids random1 random2 random3 g).call_id g.cseq =
      register_format SIP_SERVER SIP_PORT (ip2str env.ip)
        (generate_random_ids random1 random2 random3 g).branch_id SIP_USER
        (generate_random_ids random1 random2 random3 g).local_tag
        (generate_random_ids random1 random2 random3 g).call_id g.cseq ∧
    (env.host.isSome = true →
      Event.sendto sock (options_format SIP_SERVER SIP_PORT (ip2str env.ip)
          (generate_random_ids random1 random2 random3 g).branch_id SIP_USER
          (generate_random_ids random1 random2 random3 g).local_tag
          (generate_random_ids random1 random2 random3 g).call_id g.cseq) env.sendto_ret ∈
        (send_sip_options sock env (generate_random_ids random1 random2 random3 g)).2.1 ∧
      Event.sendto sock (register_format SIP_SERVER SIP_PORT (ip2str env.ip)
          (generate_random_ids random1 random2 random3 g).branch_id SIP_USER
          (generate_random_ids random1 random2 random3 g).local_tag
          (generate_random_ids random1 random2 random3 g).call_id g.cseq) env.sendto_ret ∈
        (send_sip_register sock env (generate_random_ids random1 random2 random3 g)).2.1) := by
  have hfit := generate_random_ids_fits_of_cseq random1 random2 random3 g h1 h2
  have hc : (generate_random_ids random1 random2 random3 g).cseq = g.cseq := rfl
  have ho := options_format_fits env.ip _ hfit
  have hr := register_format_fits env.ip _ hfit
  rw [hc] at ho hr
  have eo := snprintf_fits 512 _ ho
  have er := snprintf_fits 1024 _ hr
  refine ⟨rfl, rfl, rfl, ip2str_length env.ip, ho, hr, eo, er, ?_⟩
  intro hh
  have so := (send_sip_options_built sock env
    (generate_random_ids random1 random2 random3 g) hh).1
  have sr := (send_sip_register_built sock env
    (generate_random_ids random1 random2 random3 g) hh).1
  rw [hc] at so sr
  rw [options_msg, eo] at so
  rw [register_msg, er] at sr
  exact ⟨so, sr⟩

theorem configured_requests_never_truncated_witness :
    (options_format SIP_SERVER SIP_PORT (ip2str options_call.env.ip)
      (generate_random_ids 4294967295 4294967295 4294967295
        { Globals.init with cseq := -2147483648 }).branch_id SIP_USER
      (generate_random_ids 4294967295 4294967295 4294967295
        { Globals.init with cseq := -2147483648 }).local_tag
      (generate_random_ids 4294967295 4294967295 4294967295
        { Globals.init with cseq := -2147483648 }).call_id (-2147483648)).length ≤ 511 ∧
    (register_format SIP_SERVER SIP_PORT (ip2str options_call.env.ip)
      (generate_random_ids 4294967295 4294967295 4294967295
        { Globals.init with cseq := -2147483648 }).branch_id SIP_USER
      (generate_random_ids 4294967295 4294967295 4294967295
        { Globals.init with cseq := -2147483648 }).local_tag
      (generate_random_ids 4294967295 4294967295 4294967295
        { Globals.init with cseq := -2147483648 }).call_id (-2147483648)).length ≤ 1023 ∧
    Event.sendto 54 (options_format SIP_SERVER SIP_PORT (ip2str options_call.env.ip)
        (generate_random_ids 4294967295 4294967295 4294967295
          { Globals.init with cseq := -2147483648 }).branch_id SIP_USER
        (generate_random_ids 4294967295 4294967295 4294967295
          { Globals.init with cseq := -2147483648 }).local_tag
        (generate_random_ids 4294967295 4294967295 4294967295
          { Globals.init with cseq := -2147483648 }).call_id (-2147483648))
        options_call.env.sendto_ret ∈
      (send_sip_options 54 options_call.env
        (generate_random_ids 4294967295 4294967295 4294967295
          { Globals.init with cseq := -2147483648 })).2.1 :=
  ⟨(configured_requests_never_truncated 54 options_call.env 4294967295 4294967295 4294967295
      { Globals.init with cseq := -2147483648 } (by decide) (by decide)).2.2.2.2.1,
   (configured_requests_never_truncated 54 options_call.env 4294967295 4294967295 4294967295
      { Globals.init with cseq := -2147483648 } (by decide) (by decide)).2.2.2.2.2.1,
   ((configured_requests_never_truncated 54 options_call.env 4294967295 4294967295 4294967295
      { Globals.init with cseq := -2147483648 } (by decide) (by decide)).2.2.2.2.2.2.2.2
      (by decide)).1⟩

end SipClient
